import Mathlib

/-!
Verification of the presence360 tenant-api core against its specification.

Shallow embedding of the Python sources under `apps/tenant-api/app/`:
`tenant_registry.py`, `tenant_db.py`, `tenancy.py`, `auth.py`, `main.py`
(gate endpoints) and `worker.py` (recognition / messaging / rule jobs).

Modelling conventions:
* machine time is a natural (monotonic clock) or integer (wall clock) number;
* SHA-256 digests are modelled by their preimage (an injective encoding),
  written with an explicit tag, since only digest equality matters;
* Python string truthiness (`if s:`) is `s ≠ ""` on `Option String`;
* JSONB configuration values used by the modelled code paths are numeric,
  so `tenant_config.value_json` is modelled as a rational number;
* database tables are lists of rows; unique constraints are checked by the
  `commit` step of the relevant job, mirroring `IntegrityError` handling.
-/

namespace Presence360

/-- Python truthiness for an optional string (`None` and `""` are falsy). -/
def pyTruthy : Option String → Bool
  | none => false
  | some s => s != ""

/-- ASCII lower-casing of one character (Python `str.lower` on the ASCII
inputs the modelled code handles). -/
def pyCharLower (c : Char) : Char :=
  if 'A' ≤ c && c ≤ 'Z' then Char.ofNat (c.toNat + 32) else c

/-- Python `str.lower`. -/
def pyLower (s : String) : String := String.mk (s.data.map pyCharLower)

/-- Python whitespace for `str.strip`. -/
def pyIsSpace (c : Char) : Bool :=
  c == ' ' || c == '\t' || c == '\n' || c == '\r'

/-- Python `str.strip()`. -/
def pyStrip (s : String) : String :=
  String.mk (((s.data.dropWhile pyIsSpace).reverse.dropWhile pyIsSpace).reverse)

/-- Python `s.strip().lower()`, the slug normalization. -/
def pyStripLower (s : String) : String := pyLower (pyStrip s)

/-- Python `s.split(sep, 1)[0]`: the prefix up to the first separator. -/
def pyTakeUntil (sep : Char) (s : String) : String :=
  String.mk (s.data.takeWhile (fun c => c != sep))

/-- Python `s.split(sep)` on a single-character separator. -/
def splitChars (sep : Char) : List Char → List (List Char)
  | [] => [[]]
  | c :: rest =>
    let r := splitChars sep rest
    if c == sep then [] :: r
    else
      match r with
      | h :: t => (c :: h) :: t
      | [] => [[c]]

/-- Decimal value of a digit string. -/
def digitsVal (l : List Char) : Nat :=
  l.foldl (fun a c => a * 10 + (c.toNat - 48)) 0

/-! ## Tenant registry client (`tenant_registry.py`) -/

/-- `TenantRegistryRecord` dataclass from `tenant_registry.py`. -/
structure TenantRegistryRecord where
  tenant_id : String
  slug : String
  db_name : String
  db_host : String
  db_port : String
  db_user : String
  secret_ref : String
  tls_mode : String
  status : String
  deriving DecidableEq, Repr

/-- `TenantRegistryError`: message plus HTTP status code. -/
structure TenantRegistryError where
  message : String
  status_code : Nat
  deriving DecidableEq, Repr

/-- Mutable state of a `TenantRegistryClient`: the clamped TTL
(`max(cache_ttl_seconds, 0)`) and the slug-keyed cache of
`(expiry_instant, record)` pairs. -/
structure RegistryClientState where
  cacheTtlSeconds : Nat
  cache : List (String × (Nat × TenantRegistryRecord))
  deriving DecidableEq, Repr

/-- Constructor of `TenantRegistryClient`: clamps the configured TTL at 0
and starts with an empty cache. -/
def RegistryClientState.init (ttl : Int) : RegistryClientState :=
  { cacheTtlSeconds := ttl.toNat, cache := [] }

/-- Python `dict` assignment `cache[slug] = v`: whole-value replacement. -/
def dictSet {α : Type} (m : List (String × α)) (k : String) (v : α) :
    List (String × α) :=
  (k, v) :: m.filter (fun kv => kv.1 ≠ k)

/-- The fetch-and-store tail of `TenantRegistryClient.get_tenant`: perform the
remote lookup, and cache the record under the normalized slug iff the TTL is
positive.  The third component counts remote calls made (0 or 1). -/
def fetchAndStore (st : RegistryClientState) (now : Nat) (key : String)
    (fetch : String → Except TenantRegistryError TenantRegistryRecord) :
    Except TenantRegistryError TenantRegistryRecord × RegistryClientState × Nat :=
  match fetch key with
  | .error e => (.error e, st, 1)
  | .ok record =>
    if st.cacheTtlSeconds > 0 then
      (.ok record,
       { st with cache := dictSet st.cache key (now + st.cacheTtlSeconds, record) },
       1)
    else (.ok record, st, 1)

/-- `TenantRegistryClient.get_tenant` (tenant_registry.py:46-56): normalize
the slug, serve from cache iff the entry's expiry is strictly in the future,
otherwise fetch remotely and (when TTL > 0) replace the cache entry with
expiry `now + ttl`. -/
def get_tenant (st : RegistryClientState) (now : Nat) (slug : String)
    (fetch : String → Except TenantRegistryError TenantRegistryRecord) :
    Except TenantRegistryError TenantRegistryRecord × RegistryClientState × Nat :=
  let key := pyStripLower slug
  match st.cache.lookup key with
  | some (expiry, record) =>
    if expiry > now then (.ok record, st, 0)
    else fetchAndStore st now key fetch
  | none => fetchAndStore st now key fetch

/-! ### `_fetch_tenant` and its error mapping (`tenant_registry.py:58-82`) -/

/-- Parsed JSON body of a registry `resolve` response with the keys the
client reads; `tls_mode` and `status` are read with `.get` defaults. -/
structure ResolveBody where
  tenant_id : String
  slug : String
  db_name : String
  db_host : String
  db_port : String
  db_user : String
  secret_ref : String
  tls_mode : Option String
  status : Option String
  deriving DecidableEq, Repr

/-- What the HTTP client call `self._client.get(...)` produces: either a
response with a status code (body `none` when it is not a well-formed
resolve document), or a transport-level error (connection failure,
timeout) raised as an exception by the HTTP library. -/
inductive UpstreamResult where
  | response (statusCode : Nat) (body : Option ResolveBody)
  | transportError (msg : String)
  deriving DecidableEq, Repr

/-- Outcome of `_fetch_tenant`: a record, a raised `TenantRegistryError`,
or an exception of some other class escaping the method (the source wraps
nothing in `try`/`except`, so transport and body-parsing errors propagate
as-is). -/
inductive FetchOutcome where
  | ok (r : TenantRegistryRecord)
  | registryError (status : Nat) (msg : String)
  | uncaught (kind msg : String)
  deriving DecidableEq, Repr

/-- `TenantRegistryClient._fetch_tenant` (tenant_registry.py:58-82): maps a
404 response to `TenantRegistryError(404)`, any other `>= 400` response to
`TenantRegistryError(502)`, parses every sub-400 response as a record
(applying the `tls_mode="disable"` / `status="unknown"` defaults), and lets
transport and parse errors escape uncaught. -/
def _fetch_tenant (resp : UpstreamResult) : FetchOutcome :=
  match resp with
  | .transportError m => .uncaught "httpx.TransportError" m
  | .response code body =>
    if code == 404 then .registryError 404 "Tenant not found"
    else if code ≥ 400 then .registryError 502 "Tenant registry lookup failed"
    else
      match body with
      | none => .uncaught "json" "malformed resolve body"
      | some b =>
        .ok { tenant_id := b.tenant_id, slug := b.slug, db_name := b.db_name,
              db_host := b.db_host, db_port := b.db_port, db_user := b.db_user,
              secret_ref := b.secret_ref,
              tls_mode := b.tls_mode.getD "disable",
              status := b.status.getD "unknown" }

/-- Whether a fetch outcome is an `UpstreamError` carrying HTTP status 502. -/
def isUpstream502 : FetchOutcome → Bool
  | .registryError 502 _ => true
  | _ => false

/-- Whether a fetch outcome is an exception the client raised itself
(a `TenantRegistryError`), as opposed to one escaping uncaught. -/
def isRegistryError : FetchOutcome → Bool
  | .registryError _ _ => true
  | _ => false

/-! ## Tenant context and tenant resolution (`tenancy.py`) -/

/-- `TenantContext` dataclass from `tenancy.py`. -/
structure TenantContext where
  tenant_id : String
  slug : String
  db_name : String
  db_host : String
  db_port : String
  db_user : String
  secret_ref : String
  tls_mode : String
  status : String
  deriving DecidableEq, Repr

/-- `TenantResolutionError`: message plus HTTP status code. -/
structure TenantResolutionError where
  message : String
  status_code : Nat
  deriving DecidableEq, Repr

/-- Python `ipaddress.ip_address` success on a dotted-quad IPv4 string:
four dot-separated decimal octets, each without leading zeros and ≤ 255.
(IPv6 literals contain a colon, which can never survive the preceding
`host.split(":", 1)[0]`.) -/
def isIpLiteral (s : String) : Bool :=
  let parts := splitChars '.' s.data
  parts.length == 4 &&
    parts.all (fun p =>
      !p.isEmpty && p.all Char.isDigit &&
        (p == ['0'] || p.headD ' ' != '0') && digitsVal p ≤ 255)

/-- `_resolve_slug` (tenancy.py:59-80).  `headerSlug` is the
`x-tenant-slug` header (`none` when absent) and `hostHeader` the `Host`
header; `headers.get("host", "")` defaults to the empty string. -/
def _resolve_slug (env : String) (headerSlug : Option String)
    (hostHeader : Option String) : Except TenantResolutionError String :=
  if env == "dev" && pyTruthy headerSlug then
    .ok (pyStripLower (headerSlug.getD ""))
  else
    let host := pyLower (pyTakeUntil ':' (hostHeader.getD ""))
    if host == "" then .error ⟨"Host header missing", 400⟩
    else if host == "localhost" || host == "127.0.0.1" then
      .error ⟨"Tenant subdomain required", 400⟩
    else if isIpLiteral host then .error ⟨"Tenant subdomain required", 400⟩
    else if !(host.data.any (fun c => c == '.')) then
      .error ⟨"Tenant subdomain required", 400⟩
    else
      let slug := pyTakeUntil '.' host
      if slug == "" then .error ⟨"Tenant subdomain required", 400⟩
      else .ok slug

/-! ## Tenant session manager (`tenant_db.py`) -/

/-- `TenantSessionManager` state: the `connection_identity → factory`
cache (factories numbered by creation order) and the id the next created
factory will receive. -/
structure SessionManagerState where
  engineCache : List (String × Nat)
  nextFactory : Nat
  deriving DecidableEq, Repr

/-- A database session, bound to the pooled factory that produced it. -/
structure DbSession where
  factory : Nat
  deriving DecidableEq, Repr

/-- `TenantSessionManager._normalize_host`: outside the `dev` environment
the host is used as given; in `dev`, hosts that fail DNS resolution fall
back to `localhost`. -/
def normalizeHost (env : String) (dnsResolves : String → Bool)
    (host : String) : String :=
  if env != "dev" then host
  else if dnsResolves host then host else "localhost"

/-- The `cache_key` f-string of `TenantSessionManager.get_session`:
`host:port:name:user:secret_ref`. -/
def connectionKey (host port name user secretRef : String) : String :=
  host ++ ":" ++ port ++ ":" ++ name ++ ":" ++ user ++ ":" ++ secretRef

/-- The `with self._lock:` section of `get_session` (tenant_db.py:47-55):
look the key up in the engine cache and lazily create a new factory on a
miss.  The lock makes this check-then-create sequence atomic; the model
renders it as a single state transition. -/
def lockedCheckThenCreate (st : SessionManagerState) (key : String) :
    Nat × SessionManagerState :=
  match st.engineCache.lookup key with
  | some f => (f, st)
  | none =>
    (st.nextFactory,
     { engineCache := st.engineCache ++ [(key, st.nextFactory)],
       nextFactory := st.nextFactory + 1 })

/-- `TenantSessionManager.get_session` (tenant_db.py:34-56): resolve the
secret, normalize the host, build the connection key, then return a
session bound to the (possibly freshly created) factory for that key. -/
def get_session (st : SessionManagerState) (ctx : TenantContext)
    (env : String) (dnsResolves : String → Bool)
    (secretGet : String → Except String String) :
    Except String (DbSession × SessionManagerState) :=
  match secretGet ctx.secret_ref with
  | .error e => .error e
  | .ok _password =>
    let host := normalizeHost env dnsResolves ctx.db_host
    let key := connectionKey host ctx.db_port ctx.db_name ctx.db_user ctx.secret_ref
    let fs := lockedCheckThenCreate st key
    .ok (⟨fs.1⟩, fs.2)

/-- Well-formedness of a session-manager state: cache keys are distinct,
factory ids are distinct, and every cached id is below the next fresh id. -/
def SessionManagerState.wf (st : SessionManagerState) : Prop :=
  (st.engineCache.map Prod.fst).Nodup ∧
  (st.engineCache.map Prod.snd).Nodup ∧
  ∀ kv ∈ st.engineCache, kv.2 < st.nextFactory

instance (st : SessionManagerState) : Decidable st.wf := by
  unfold SessionManagerState.wf; infer_instance

/-! ## Tenant database rows (`models.py`) -/

/-- `IdempotencyKey` row (models.py:288-297); `key` carries a unique
constraint. -/
structure IdemKeyRow where
  scope : String
  key : String
  request_hash : String
  response_ref : String
  status : String
  deriving DecidableEq, Repr

/-- `RecognitionResult` row (models.py:300-315); `frame_id` carries a
unique constraint.  `metadata_json` is modelled by the fields the worker
writes into it (never the image bytes). -/
structure RecognitionResultRow where
  frame_id : String
  gate_id : String
  session_id : Option Nat
  latency_ms : Nat
  best_confidence : Option Rat
  best_face_id : Option String
  person_id : Option Nat
  decision : String
  rejection_reason : Option String
  provider_response_code : Option String
  meta_job_id : String
  meta_request_hash : String
  deriving DecidableEq, Repr

/-- `VisitEvent` row (models.py:318-327); `frame_id` carries a unique
constraint. -/
structure VisitEventRow where
  frame_id : String
  gate_id : String
  captured_at : String
  person_id : Option Nat
  status : String
  deriving DecidableEq, Repr

/-- `FaceProfile` row (models.py:119-145), the fields the worker reads. -/
structure FaceProfileRow where
  person_id : Nat
  provider : String
  rekognition_face_id : String
  status : String
  deriving DecidableEq, Repr

/-- `Gate` row (models.py:261-267). -/
structure GateRow where
  id : String
  status : String
  deriving DecidableEq, Repr

/-- `GateAgentSession` row (models.py:270-285); `session_token_hash` and
`bootstrap_token_hash` carry unique constraints. -/
structure GateSessionRow where
  id : Nat
  gate_id : String
  session_token_hash : String
  bootstrap_token_hash : Option String
  status : String
  expires_at : Int
  last_seen_at : Option Int
  last_frame_at : Option Int
  deriving DecidableEq, Repr

/-- `MessageLog` row (models.py:179-199), the fields the worker touches. -/
structure MessageLogRow where
  id : Nat
  person_id : Option Nat
  template_id : Option Nat
  channel : String
  to_phone_enc : Option String
  to_phone_hash : Option String
  status : String
  provider_message_id : Option String
  cost_cents : Option Int
  sent_at : Option Int
  error_code : Option String
  deriving DecidableEq, Repr

/-- `Person` row (models.py:92-106), the fields the worker reads. -/
structure PersonRow where
  id : Nat
  full_name : String
  consent_status : String
  phone_enc : Option String
  phone_hash : Option String
  deriving DecidableEq, Repr

/-- `Rule` row (models.py:202-216), the fields the rule job reads. -/
structure RuleRow where
  id : Nat
  rule_type : String
  status : String
  deriving DecidableEq, Repr

/-- `stats_json` payloads the rule job writes. -/
inductive RuleStats where
  | counts (candidates messages_queued messages_skipped tasks_created : Nat)
  | errMsg (s : String)
  | templateMissing (name : String)
  deriving DecidableEq, Repr

/-- `RuleRun` row (models.py:219-228). -/
structure RuleRunRow where
  id : Nat
  rule_id : Nat
  status : String
  stats_json : Option RuleStats
  deriving DecidableEq, Repr

/-- One tenant's isolated database: the tables the modelled code touches. -/
structure TenantDb where
  idempotency_keys : List IdemKeyRow
  recognition_results : List RecognitionResultRow
  visit_events : List VisitEventRow
  face_profiles : List FaceProfileRow
  gates : List GateRow
  gate_sessions : List GateSessionRow
  tenant_config : List (String × Rat)
  message_logs : List MessageLogRow
  people : List PersonRow
  rules : List RuleRow
  rule_runs : List RuleRunRow
  deriving DecidableEq, Repr

/-- The empty tenant database. -/
def TenantDb.empty : TenantDb :=
  { idempotency_keys := [], recognition_results := [], visit_events := [],
    face_profiles := [], gates := [], gate_sessions := [], tenant_config := [],
    message_logs := [], people := [], rules := [], rule_runs := [] }

/-! ## Gate session authentication (`auth.py`, `main.py`) -/

/-- `_hash_token` computes a SHA-256 hex digest; the digest is modelled by
its preimage under an explicit tag, which is injective. -/
def _hash_token (token : String) : String :=
  "sha256:" ++ token

/-- `get_gate_session` (auth.py:35-57), after bearer-token extraction:
look the session up by token hash (unique column), 401 when absent,
403 when its status is not `active`, 401 when expired. -/
def get_gate_session (sessions : List GateSessionRow) (token : String)
    (now : Int) : Except (Nat × String) GateSessionRow :=
  match sessions.find? (fun s => s.session_token_hash == _hash_token token) with
  | none => .error (401, "Unauthorized")
  | some s =>
    if s.status != "active" then .error (403, "Session revoked")
    else if s.expires_at ≤ now then .error (401, "Session expired")
    else .ok s

/-- The `update(GateAgentSession).where(gate_id == g, status == "active")
.values(status="revoked")` statement of `gate_auth_session`. -/
def revokeActiveForGate (gateId : String) (sessions : List GateSessionRow) :
    List GateSessionRow :=
  sessions.map (fun s =>
    if s.gate_id == gateId && s.status == "active" then
      { s with status := "revoked" }
    else s)

/-- `gate_auth_session` (main.py:1094-1152): validate the payload, require
an active gate, check the configured bootstrap token, reject a reused
bootstrap-token hash with 409, then — in one transaction — revoke every
active session of the gate and insert a fresh active session. -/
def gate_auth_session (db : TenantDb) (gateId bootstrapToken : String)
    (settingsBootstrapToken : String) (ttlSeconds : Int)
    (newSessionId : Nat) (newToken : String) (now : Int) :
    Except (Nat × String) (TenantDb × String) :=
  if gateId == "" then .error (422, "gate_id is required")
  else if bootstrapToken == "" then .error (422, "bootstrap_token is required")
  else
    match db.gates.find? (fun g => g.id == gateId) with
    | none => .error (403, "gate not authorized")
    | some gate =>
      if gate.status != "active" then .error (403, "gate not authorized")
      else if settingsBootstrapToken == "" ||
          bootstrapToken != settingsBootstrapToken then
        .error (401, "invalid bootstrap token")
      else
        let bootstrapHash := _hash_token bootstrapToken
        match db.gate_sessions.find?
            (fun s => s.bootstrap_token_hash == some bootstrapHash) with
        | some _ => .error (409, "bootstrap token already used")
        | none =>
          let fresh : GateSessionRow :=
            { id := newSessionId, gate_id := gateId,
              session_token_hash := _hash_token newToken,
              bootstrap_token_hash := some bootstrapHash,
              status := "active", expires_at := now + ttlSeconds,
              last_seen_at := some now, last_frame_at := none }
          .ok ({ db with gate_sessions :=
                   revokeActiveForGate gateId db.gate_sessions ++ [fresh] },
               newToken)

/-- No two sessions in the list are simultaneously `active` for the same
gate (the "at most one active session per gate" invariant), as an
executable check. -/
def noTwoActive : List GateSessionRow → Bool
  | [] => true
  | s :: rest =>
    (s.status != "active" ||
      rest.all (fun t => !(t.status == "active" && t.gate_id == s.gate_id))) &&
    noTwoActive rest

/-- Number of active sessions a gate holds. -/
def countActiveFor (sessions : List GateSessionRow) (gateId : String) : Nat :=
  (sessions.filter (fun s => s.gate_id == gateId && s.status == "active")).length

/-! ## Frame submission endpoint (`main.py`, `POST /gate/frames`) -/

/-- A frame submission after FastAPI form validation: the typed fields of
`gate_frames`.  Image bytes are modelled as a string. -/
structure FrameSubmission where
  frame_id : String
  gate_id : String
  captured_at : String
  image : String
  motion_score : Option Rat
  face_present : Option Bool
  deriving DecidableEq, Repr

/-- `_hash_payload` (main.py:193-215): SHA-256 over
`frame_id | gate_id | captured_at | [motion_score] | [face_present] | image`,
modelled by the digest preimage (equal tuples give equal hashes; the
claims only compare hashes for equality). -/
def _hash_payload (p : FrameSubmission) : String :=
  p.frame_id ++ "|" ++ p.gate_id ++ "|" ++ p.captured_at ++ "|" ++
    (match p.motion_score with | some q => toString q | none => "") ++ "|" ++
    (match p.face_present with
     | some true => "True" | some false => "False" | none => "") ++ "|" ++
    p.image

/-- The HTTP response of `gate_frames`. -/
inductive FramesResponse where
  | accepted (frame_id job_id : String) (idempotent : Bool)
  | errorResp (status : Nat) (detail : String)
  deriving DecidableEq, Repr

/-- The celery arguments of one enqueued `recognition_job.delay(...)`. -/
structure RecJobArgs where
  frame_id : String
  gate_id : String
  captured_at : String
  request_hash : String
  job_id : String
  image : String
  session_id : Option Nat
  face_present : Option Bool
  motion_score : Option Rat
  deriving DecidableEq, Repr

/-- Write back an updated gate-session row by primary key. -/
def storeSession (sessions : List GateSessionRow) (s : GateSessionRow) :
    List GateSessionRow :=
  sessions.map (fun t => if t.id == s.id then s else t)

/-- The `last_frame_at` / `last_seen_at` touch the fresh-submission path of
`gate_frames` applies to the presenting session. -/
def touchSession (s : GateSessionRow) (now : Int) : GateSessionRow :=
  { s with last_frame_at := some now, last_seen_at := some now }

/-- `gate_frames` (main.py:1179-1286) after form parsing, given the
authenticated `gate_session` dependency: check the session's gate against
the submitted gate id, require an active gate row, enforce the frame
cooldown, then run the idempotency-ledger protocol on `frame_id` — replay
with the stored `job_id` on an identical request hash, 409 on a mismatched
hash, and otherwise insert the ledger row, touch the session and enqueue
one recognition job with a fresh `job_id`. -/
def gate_frames (db : TenantDb) (sess : GateSessionRow) (p : FrameSubmission)
    (now : Int) (cooldownSeconds : Int) (freshJobId : String) :
    FramesResponse × TenantDb × List RecJobArgs :=
  if sess.gate_id != p.gate_id then
    (.errorResp 403 "gate not authorized", db, [])
  else
    match db.gates.find? (fun g => g.id == p.gate_id) with
    | none => (.errorResp 403 "gate not authorized", db, [])
    | some gate =>
      if gate.status != "active" then
        (.errorResp 403 "gate not authorized", db, [])
      else
        let cooldownHit :=
          match sess.last_frame_at with
          | some t => cooldownSeconds > 0 && now - t < cooldownSeconds
          | none => false
        if cooldownHit then (.errorResp 429 "cooldown active", db, [])
        else
          let requestHash := _hash_payload p
          match db.idempotency_keys.find? (fun k => k.key == p.frame_id) with
          | some existing =>
            if existing.request_hash != requestHash then
              (.errorResp 409 "frame_id already used with different payload",
               db, [])
            else
              (.accepted p.frame_id existing.response_ref true, db, [])
          | none =>
            let idem : IdemKeyRow :=
              { scope := "visit_event", key := p.frame_id,
                request_hash := requestHash, response_ref := freshJobId,
                status := "pending" }
            let db' := { db with
              idempotency_keys := db.idempotency_keys ++ [idem],
              gate_sessions := storeSession db.gate_sessions (touchSession sess now) }
            (.accepted p.frame_id freshJobId false, db',
             [{ frame_id := p.frame_id, gate_id := p.gate_id,
                captured_at := p.captured_at, request_hash := requestHash,
                job_id := freshJobId, image := p.image,
                session_id := some sess.id, face_present := p.face_present,
                motion_score := p.motion_score }])

/-! ## Tenant configuration (`tenant_config.py`) -/

/-- The numeric part of `DEFAULT_CONFIG` (tenant_config.py:13-23); the
modelled code paths only read numeric keys. -/
def DEFAULT_CONFIG : List (String × Rat) :=
  [("rekognition_min_confidence", 90), ("dedupe_window_seconds", 300),
   ("absence_threshold_sessions", 6), ("absence_threshold_weeks", 3),
   ("welcome_cooldown_minutes", 1440), ("followup_escalation_days", 3)]

/-- `get_config_value` (tenant_config.py:26-38): return the stored value
when present; otherwise fall back to the explicit default (or, when the
explicit default is `None`, to `DEFAULT_CONFIG`), and — when that fallback
is not `None` — insert the fallback as a new config row and commit it. -/
def get_config_value (db : TenantDb) (key : String) (dflt : Option Rat) :
    Option Rat × TenantDb :=
  match db.tenant_config.lookup key with
  | some v => (some v, db)
  | none =>
    let value := match dflt with
      | none => DEFAULT_CONFIG.lookup key
      | some d => some d
    match value with
    | none => (none, db)
    | some v =>
      (some v, { db with tenant_config := db.tenant_config ++ [(key, v)] })

/-! ## Recognition job (`worker.py:178-317`) -/

/-- Environment of one recognition-job run: the secret store, the face
provider's configuration state and the result of its `recognize` call. -/
structure RecJobEnv where
  secret_ok : Bool
  provider_configured : Bool
  provider_error_code : String
  recognize_raises : Option String
  best_face_id : Option String
  best_confidence : Option Rat
  latency_ms : Nat
  deriving Repr

/-- Threshold computation of `recognition_job` (worker.py:206-212): a
configured `recognition_threshold` ≤ 1 is rescaled ×100; otherwise the
`rekognition_min_confidence` value (default 90) applies.  Returns the
effective minimum confidence and the database (which `get_config_value`
may have extended with materialized defaults). -/
def effectiveMinConfidence (db : TenantDb) : Rat × TenantDb :=
  match get_config_value db "recognition_threshold" none with
  | (some t, db1) => (if t ≤ 1 then t * 100 else t, db1)
  | (none, db1) =>
    match get_config_value db1 "rekognition_min_confidence" (some 90) with
    | (some v, db2) => (v, db2)
    | (none, db2) => (0, db2)

/-- The `scalar_one_or_none` lookup of an active enrolled face profile for
the best face id (worker.py:250-256): provider `rekognition`, exact face
id, status `active`. -/
def lookupActiveProfile (profiles : List FaceProfileRow) (faceId : String) :
    Option FaceProfileRow :=
  profiles.find? (fun p =>
    p.provider == "rekognition" && p.rekognition_face_id == faceId &&
      p.status == "active")

/-- The decision fields `recognition_job` computes. -/
structure DecisionOut where
  decision : String
  rejection_reason : Option String
  person_id : Option Nat
  provider_code : Option String
  deriving DecidableEq, Repr

/-- The decision block of `recognition_job` (worker.py:218-269): short-
circuit on `face_present is False`; `decision=error` when the provider is
unconfigured or `recognize` raises; otherwise compare the best candidate's
confidence against the effective threshold and look up the active enrolled
profile; keep `decision="unknown"` with the appropriate rejection reason
when no match stands. -/
def recognitionDecision (profiles : List FaceProfileRow)
    (face_present : Option Bool) (env : RecJobEnv)
    (minConfidence : Rat) : DecisionOut :=
  if face_present == some false then
    { decision := "unknown", rejection_reason := some "no_face",
      person_id := none, provider_code := none }
  else if !env.provider_configured then
    { decision := "error", rejection_reason := some "error",
      person_id := none, provider_code := some env.provider_error_code }
  else
    match env.recognize_raises with
    | some excName =>
      { decision := "error", rejection_reason := some "error",
        person_id := none, provider_code := some excName }
    | none =>
      if pyTruthy env.best_face_id && env.best_confidence.isSome then
        let conf := env.best_confidence.getD 0
        if conf ≥ minConfidence then
          match lookupActiveProfile profiles ((env.best_face_id).getD "") with
          | some profile =>
            { decision := "matched", rejection_reason := none,
              person_id := some profile.person_id, provider_code := none }
          | none =>
            { decision := "unknown", rejection_reason := some "no_match",
              person_id := none, provider_code := none }
        else
          { decision := "unknown", rejection_reason := some "below_threshold",
            person_id := none, provider_code := none }
      else
        { decision := "unknown", rejection_reason := some "no_match",
          person_id := none, provider_code := none }

/-- The `best_face_id` / `best_confidence` locals as persisted: they stay
`None` unless the `recognize` call ran and returned normally
(worker.py:217-243). -/
def observedBest (face_present : Option Bool) (env : RecJobEnv) :
    Option String × Option Rat :=
  if face_present == some false || !env.provider_configured ||
      env.recognize_raises.isSome then
    (none, none)
  else (env.best_face_id, env.best_confidence)

/-- The database as the recognition job sees it after its configuration
reads (the threshold keys plus the dedupe-window read), which may
materialize missing defaults into `tenant_config`. -/
def recJobCfgDb (db : TenantDb) : TenantDb :=
  (get_config_value (effectiveMinConfidence db).2 "dedupe_window_seconds"
    (some 300)).2

/-- The `RecognitionResult` row `recognition_job` builds
(worker.py:272-292). -/
def recRowOf (db : TenantDb) (args : RecJobArgs) (env : RecJobEnv) :
    RecognitionResultRow :=
  let d := recognitionDecision (recJobCfgDb db).face_profiles
    args.face_present env (effectiveMinConfidence db).1
  let best := observedBest args.face_present env
  { frame_id := args.frame_id, gate_id := args.gate_id,
    session_id := args.session_id, latency_ms := env.latency_ms,
    best_confidence := best.2, best_face_id := best.1,
    person_id := d.person_id, decision := d.decision,
    rejection_reason := d.rejection_reason,
    provider_response_code := d.provider_code,
    meta_job_id := args.job_id, meta_request_hash := args.request_hash }

/-- The `VisitEvent` row `recognition_job` builds (worker.py:293-300). -/
def visitRowOf (db : TenantDb) (args : RecJobArgs) (env : RecJobEnv) :
    VisitEventRow :=
  let d := recognitionDecision (recJobCfgDb db).face_profiles
    args.face_present env (effectiveMinConfidence db).1
  { frame_id := args.frame_id, gate_id := args.gate_id,
    captured_at := args.captured_at, person_id := d.person_id,
    status := if d.person_id.isSome then "matched" else "unknown" }

/-- `recognition_job` (worker.py:178-317): resolve the tenant session
(terminating early on a secret-store failure), read the threshold
configuration, compute the recognition decision, then — in one
transaction — insert the `RecognitionResult` and `VisitEvent` rows and
mark the frame's idempotency record succeeded; an `IntegrityError` at
commit (a duplicate `frame_id` in either unique column) is caught and the
transaction rolled back, leaving only the committed configuration reads.
Returns the updated database and the echoed `job_id`. -/
def recognition_job (db : TenantDb) (args : RecJobArgs) (env : RecJobEnv) :
    TenantDb × String :=
  if !env.secret_ok then (db, args.job_id)
  else
    let db2 := recJobCfgDb db
    if db2.recognition_results.any (fun r => r.frame_id == args.frame_id) ||
        db2.visit_events.any (fun v => v.frame_id == args.frame_id) then
      (db2, args.job_id)
    else
      ({ db2 with
         recognition_results := db2.recognition_results ++ [recRowOf db args env],
         visit_events := db2.visit_events ++ [visitRowOf db args env],
         idempotency_keys := db2.idempotency_keys.map (fun k =>
           if k.key == args.frame_id then
             { k with status := "succeeded", response_ref := args.job_id }
           else k) },
       args.job_id)

/-- The unique constraints on `RecognitionResult.frame_id` and
`VisitEvent.frame_id`: at most one row per frame in either table. -/
def uniqueFrameIds (db : TenantDb) : Prop :=
  (db.recognition_results.map (fun r => r.frame_id)).Nodup ∧
  (db.visit_events.map (fun v => v.frame_id)).Nodup

instance (db : TenantDb) : Decidable (uniqueFrameIds db) := by
  unfold uniqueFrameIds; infer_instance

/-! ## Messaging job (`worker.py:320-417`) -/

/-- Environment of one messaging-job run: decryption, provider
configuration and the provider's `send_sms` result. -/
structure MsgEnv where
  decrypt : String → Option String
  provider_mode : String
  api_key : Option String
  provider_status : String
  provider_message_id : Option String
  provider_cost_cents : Option Int
  provider_error_code : Option String

/-- Write back an updated message-log row by primary key. -/
def storeMessageLog (db : TenantDb) (log : MessageLogRow) : TenantDb :=
  { db with message_logs :=
      db.message_logs.map (fun l => if l.id == log.id then log else l) }

/-- The `update(IdempotencyKey).where(response_ref == message_log_id,
scope == "message_send")` statement of `send_message_job`. -/
def setIdemStatusForLog (db : TenantDb) (logId : Nat) (status : String) :
    TenantDb :=
  { db with idempotency_keys := db.idempotency_keys.map (fun k =>
      if k.response_ref == toString logId && k.scope == "message_send" then
        { k with status := status }
      else k) }

/-- `send_message_job` (worker.py:320-417): no-op when the log row is
missing or its status is not `queued`/`retry`; terminal failure on a
missing body, missing phone, decryption error or unconfigured provider;
otherwise one provider call, after which the log row is set to
`sent`/`failed` and the linked idempotency record to
`succeeded`/`failed`.  Returns the database, the number of provider calls
made, and the recorded task result. -/
def send_message_job (db : TenantDb) (logId : Nat) (body : Option String)
    (env : MsgEnv) (now : Int) (secret_ok : Bool) :
    TenantDb × Nat × String :=
  if !secret_ok then (db, 0, "error")
  else
    match db.message_logs.find? (fun l => l.id == logId) with
    | none => (db, 0, "skipped")
    | some log =>
      if !(log.status == "queued" || log.status == "retry") then
        (db, 0, "skipped")
      else if !(pyTruthy body) then
        (storeMessageLog db
           { log with status := "failed", error_code := some "missing_body" },
         0, "error")
      else
        let toPhoneEnc :=
          if !(pyTruthy log.to_phone_enc) then
            match log.person_id with
            | some pid =>
              match db.people.find? (fun p => p.id == pid) with
              | some person => person.phone_enc
              | none => log.to_phone_enc
            | none => log.to_phone_enc
          else log.to_phone_enc
        if !(pyTruthy toPhoneEnc) then
          (storeMessageLog db
             { log with status := "failed", error_code := some "missing_phone" },
           0, "error")
        else
          match env.decrypt (toPhoneEnc.getD "") with
          | none =>
            (storeMessageLog db
               { log with
                 status := "failed",
                 error_code := some "decrypt_error" },
             0, "error")
          | some _toPhone =>
            if pyLower env.provider_mode != "mock" && !(pyTruthy env.api_key) then
              (storeMessageLog db
                 { log with
                   status := "failed",
                   error_code := some "messaging_not_configured" },
               0, "error")
            else
              let sent := env.provider_status == "sent"
              let log' :=
                { log with
                  status := if sent then "sent" else "failed",
                  sent_at := if sent then some now else log.sent_at,
                  provider_message_id := env.provider_message_id,
                  cost_cents := env.provider_cost_cents,
                  error_code := env.provider_error_code }
              (setIdemStatusForLog (storeMessageLog db log') logId
                 (if sent then "succeeded" else "failed"),
               1, log'.status)

/-! ## Rule job skeleton (`worker.py:420-664`) -/

/-- Events of one rule-job run, in execution order. -/
inductive RuleEvent where
  | commitEvt
  | rollbackEvt
  | dispatchEvt (logId : Nat)
  deriving DecidableEq, Repr

/-- Outcome of the rule-type-specific section of `run_rule_job`
(worker.py:450-640, the welcome/absence bodies), abstracted:
`completed` carries the staged (uncommitted) database, the stats summary
and the queued messages; `earlyReturn` the paths that commit a run status
and return without dispatching (missing template, unsupported rule type);
`raised` an unhandled exception anywhere in the `try` block, carrying the
state of the last successful commit (what `session.rollback()` restores)
and the error text. -/
inductive RuleBodyOutcome where
  | completed (staged : TenantDb) (stats : RuleStats)
      (queued : List (Nat × String))
  | earlyReturn (staged : TenantDb) (runStatus : String)
      (stats : Option RuleStats)
  | raised (committed : TenantDb) (err : String)

/-- Set a rule-run row's status (keeping its stats). -/
def setRunStatus (db : TenantDb) (runId : Nat) (status : String) : TenantDb :=
  { db with rule_runs := db.rule_runs.map (fun r =>
      if r.id == runId then { r with status := status } else r) }

/-- Set a rule-run row's status and stats. -/
def setRunStatusStats (db : TenantDb) (runId : Nat) (status : String)
    (stats : Option RuleStats) : TenantDb :=
  { db with rule_runs := db.rule_runs.map (fun r =>
      if r.id == runId then { r with status := status, stats_json := stats }
      else r) }

/-- Result of one `run_rule_job` invocation: final database, the
`send_message_job.delay` calls made (in order), the re-raised exception if
any, and the run's event trace. -/
structure RuleJobResult where
  db : TenantDb
  dispatched : List (Nat × String)
  reraised : Option String
  trace : List RuleEvent

/-- `run_rule_job` (worker.py:420-664): load rule and run (skipping when
either is missing), skip inactive rules, execute the rule body, commit the
run record, and only then dispatch the queued messages; on an unhandled
exception, roll back, record the run as `failed` with the error captured,
re-raise, and dispatch nothing. -/
def run_rule_job (db : TenantDb) (ruleId runId : Nat)
    (body : TenantDb → RuleBodyOutcome) : RuleJobResult :=
  match db.rules.find? (fun r => r.id == ruleId),
        db.rule_runs.find? (fun r => r.id == runId) with
  | some rule, some _run =>
    if rule.status != "active" then
      { db := setRunStatus db runId "skipped", dispatched := [],
        reraised := none, trace := [.commitEvt] }
    else
      match body db with
      | .earlyReturn staged runStatus stats =>
        { db := setRunStatusStats staged runId runStatus stats,
          dispatched := [], reraised := none, trace := [.commitEvt] }
      | .completed staged stats queued =>
        { db := setRunStatusStats staged runId "completed" (some stats),
          dispatched := queued, reraised := none,
          trace := .commitEvt :: queued.map (fun q => .dispatchEvt q.1) }
      | .raised committed err =>
        { db := setRunStatusStats committed runId "failed"
            (some (.errMsg err)),
          dispatched := [], reraised := some err,
          trace := [.rollbackEvt, .commitEvt] }
  | _, _ => { db := db, dispatched := [], reraised := none, trace := [] }

/-- The client state after a successful fetch for `key` at time `now` is
cached (positive-TTL case). -/
def RegistryClientState.afterStore (st : RegistryClientState) (now : Nat)
    (key : String) (r : TenantRegistryRecord) : RegistryClientState :=
  { st with cache := dictSet st.cache key (now + st.cacheTtlSeconds, r) }

/-! ## Concrete sample data used by witnesses and counterexamples -/

namespace W

/-- A sample registry record. -/
def rec0 : TenantRegistryRecord :=
  { tenant_id := "t-1", slug := "grace", db_name := "tenant_grace",
    db_host := "db.internal", db_port := "5432", db_user := "grace_app",
    secret_ref := "tenants/grace/db", tls_mode := "disable", status := "active" }

/-- A fetch function that always succeeds with `rec0`. -/
def fetchOk : String → Except TenantRegistryError TenantRegistryRecord :=
  fun _ => .ok rec0

/-- A sample tenant context. -/
def ctx0 : TenantContext :=
  { tenant_id := "t-1", slug := "grace", db_name := "tenant_grace",
    db_host := "db.internal", db_port := "5432", db_user := "grace_app",
    secret_ref := "tenants/grace/db", tls_mode := "disable",
    status := "active" }

/-- A DNS oracle that resolves every hostname. -/
def dnsAll : String → Bool := fun _ => true

/-- A secret store that resolves every reference to the same password. -/
def sgetOk : String → Except String String := fun _ => .ok "pw"

/-- An enrolled, active face profile for person 7. -/
def profile0 : FaceProfileRow :=
  { person_id := 7, provider := "rekognition",
    rekognition_face_id := "face-1", status := "active" }

/-- A tenant database with one active profile and a configured threshold. -/
def dbRec : TenantDb :=
  { TenantDb.empty with
    face_profiles := [profile0],
    tenant_config := [("recognition_threshold", 85),
                      ("dedupe_window_seconds", 300)] }

/-- Arguments of a sample recognition job. -/
def argsRec : RecJobArgs :=
  { frame_id := "f-1", gate_id := "g-1", captured_at := "2025-01-12T10:00:00+00:00",
    request_hash := "h-1", job_id := "j-1", image := "img", session_id := some 3,
    face_present := none, motion_score := none }

/-- Environment of a sample recognition job: the provider returns face-1
with confidence exactly 85. -/
def envRec : RecJobEnv :=
  { secret_ok := true, provider_configured := true, provider_error_code := "",
    recognize_raises := none, best_face_id := some "face-1",
    best_confidence := some 85, latency_ms := 12 }

/-- A persisted recognition result for frame `f-1`. -/
def rowExisting : RecognitionResultRow :=
  { frame_id := "f-1", gate_id := "g-1", session_id := none,
    latency_ms := 10, best_confidence := none, best_face_id := none,
    person_id := none, decision := "unknown",
    rejection_reason := some "no_face", provider_response_code := none,
    meta_job_id := "j-0", meta_request_hash := "h-1" }

/-- A tenant database that already holds a result for frame `f-1` but has
no materialized configuration rows. -/
def dbDup : TenantDb :=
  { TenantDb.empty with recognition_results := [rowExisting] }

/-- A tenant database that already holds a result for frame `f-1` and has
its configuration rows materialized. -/
def dbDupCfg : TenantDb :=
  { dbRec with recognition_results := [rowExisting] }

/-- A message log already sent (terminal). -/
def logSent : MessageLogRow :=
  { id := 1, person_id := none, template_id := none, channel := "sms",
    to_phone_enc := some "enc:233200000001", to_phone_hash := none,
    status := "sent", provider_message_id := some "m-0", cost_cents := some 2,
    sent_at := some 100, error_code := none }

/-- A queued message log. -/
def logQueued : MessageLogRow :=
  { id := 2, person_id := none, template_id := none, channel := "sms",
    to_phone_enc := some "enc:233200000002", to_phone_hash := none,
    status := "queued", provider_message_id := none, cost_cents := none,
    sent_at := none, error_code := none }

/-- A tenant database holding both message logs. -/
def dbMsg : TenantDb :=
  { TenantDb.empty with message_logs := [logSent, logQueued] }

/-- A messaging environment in mock mode whose provider reports `sent`. -/
def envMsg : MsgEnv :=
  { decrypt := fun s => some s, provider_mode := "mock", api_key := none,
    provider_status := "sent", provider_message_id := some "m-1",
    provider_cost_cents := some 2, provider_error_code := none }

/-- An active welcome rule. -/
def ruleRow : RuleRow := { id := 1, rule_type := "welcome", status := "active" }

/-- A queued run of that rule. -/
def runRow : RuleRunRow :=
  { id := 2, rule_id := 1, status := "queued", stats_json := none }

/-- A tenant database holding the rule and its run. -/
def dbRule : TenantDb :=
  { TenantDb.empty with rules := [ruleRow], rule_runs := [runRow] }

/-- A rule body that raises. -/
def bodyRaise : TenantDb → RuleBodyOutcome := fun dbx => .raised dbx "boom"

/-- A rule body that completes having queued one message. -/
def bodyOk : TenantDb → RuleBodyOutcome :=
  fun dbx => .completed dbx (.counts 1 1 0 0) [(5, "hi")]

/-- An active gate. -/
def gate0 : GateRow := { id := "g-1", status := "active" }

/-- An active gate-agent session for `g-1` issued from an earlier
bootstrap. -/
def sess0 : GateSessionRow :=
  { id := 10, gate_id := "g-1", session_token_hash := _hash_token "tok-old",
    bootstrap_token_hash := some (_hash_token "boot-old"),
    status := "active", expires_at := 1000, last_seen_at := some 0,
    last_frame_at := none }

/-- A tenant database with the gate and its current session. -/
def dbGate : TenantDb :=
  { TenantDb.empty with gates := [gate0], gate_sessions := [sess0] }

/-- A frame submission for gate `g-1`. -/
def frameP : FrameSubmission :=
  { frame_id := "f-9", gate_id := "g-1",
    captured_at := "2025-01-12T10:00:00+00:00", image := "img-bytes",
    motion_score := none, face_present := some false }

/-- The same frame id submitted with different image bytes. -/
def framePConf : FrameSubmission :=
  { frameP with image := "different-bytes" }

end W

/-! ## Theorems -/

section Theorems

/-- Remote-call count of the fetch-and-store path is always one. -/
theorem fetchAndStore_calls (st : RegistryClientState) (now : Nat)
    (key : String)
    (fetch : String → Except TenantRegistryError TenantRegistryRecord) :
    (fetchAndStore st now key fetch).2.2 = 1 := by
  unfold fetchAndStore
  rcases fetch key with e | r
  · rfl
  · dsimp only
    split <;> rfl

/-- A successful fetch with a positive TTL stores the record under the key
with expiry `now + ttl`. -/
theorem fetchAndStore_ok (st : RegistryClientState) (now : Nat) (key : String)
    (fetch : String → Except TenantRegistryError TenantRegistryRecord)
    (r : TenantRegistryRecord) (hf : fetch key = .ok r)
    (ht : 0 < st.cacheTtlSeconds) :
    fetchAndStore st now key fetch =
      (.ok r,
       { st with cache := dictSet st.cache key (now + st.cacheTtlSeconds, r) },
       1) := by
  unfold fetchAndStore
  rw [hf]
  simp [ht]

/-- With TTL zero the fetch-and-store path leaves the cache untouched. -/
theorem fetchAndStore_ttl_zero (st : RegistryClientState) (now : Nat)
    (key : String)
    (fetch : String → Except TenantRegistryError TenantRegistryRecord)
    (h0 : st.cacheTtlSeconds = 0) :
    (fetchAndStore st now key fetch).2.1 = st := by
  unfold fetchAndStore
  rcases fetch key with e | r
  · rfl
  · simp [h0]

/-- Lookup in a freshly written dictionary entry. -/
theorem dictSet_lookup {α : Type} (m : List (String × α)) (k : String)
    (v : α) : (dictSet m k v).lookup k = some v := by
  simp [dictSet, List.lookup]

/-- C3: on one registry client, a cached record is returned without a
remote call iff the current time is strictly before the entry's expiry
instant; otherwise a fresh remote lookup is performed and (TTL > 0) the
cache entry for the normalized slug is replaced with expiry `now + TTL`,
so a second lookup within the TTL window issues no further upstream call
and returns the same record, a lookup at or after expiry issues a second
upstream call, and with TTL = 0 no entry is ever cached and every call
from an empty cache performs a remote lookup. -/
theorem registry_cache_ttl
    (st : RegistryClientState) (now now2 now3 : Nat) (slug : String)
    (fetch fetch2 fetch3 :
      String → Except TenantRegistryError TenantRegistryRecord)
    (r : TenantRegistryRecord) :
    ((get_tenant st now slug fetch).2.2 = 0 ↔
      ∃ e rec, st.cache.lookup (pyStripLower slug) = some (e, rec) ∧ now < e) ∧
    ((∀ e rec, st.cache.lookup (pyStripLower slug) = some (e, rec) → e ≤ now) →
     fetch (pyStripLower slug) = .ok r →
     0 < st.cacheTtlSeconds →
     get_tenant st now slug fetch =
       (.ok r, st.afterStore now (pyStripLower slug) r, 1)) ∧
    (now2 < now + st.cacheTtlSeconds →
     get_tenant (st.afterStore now (pyStripLower slug) r) now2 slug fetch2 =
       (.ok r, st.afterStore now (pyStripLower slug) r, 0)) ∧
    (now + st.cacheTtlSeconds ≤ now3 →
     (get_tenant (st.afterStore now (pyStripLower slug) r) now3 slug fetch3).2.2
       = 1) ∧
    (st.cacheTtlSeconds = 0 →
      (get_tenant st now slug fetch).2.1.cache = st.cache ∧
      (st.cache = [] → (get_tenant st now slug fetch).2.2 = 1)) := by
  refine ⟨?_, ?_, ?_, ?_, ?_⟩
  · unfold get_tenant
    rcases h : st.cache.lookup (pyStripLower slug) with _ | ⟨e, rec⟩
    · simp only [h, fetchAndStore_calls]
      constructor
      · intro hc; exact absurd hc one_ne_zero
      · rintro ⟨e, rec, heq, -⟩; exact Option.noConfusion heq
    · simp only [h]
      by_cases he : e > now
      · simp only [if_pos he]
        exact ⟨fun _ => ⟨e, rec, rfl, he⟩, fun _ => trivial⟩
      · simp only [if_neg he, fetchAndStore_calls]
        constructor
        · intro hc; exact absurd hc one_ne_zero
        · rintro ⟨e', rec', heq, hlt⟩
          cases heq
          exact absurd hlt he
  · intro hstale hf ht
    unfold get_tenant
    rcases h : st.cache.lookup (pyStripLower slug) with _ | ⟨e, rec⟩
    · simp only [h]
      exact fetchAndStore_ok st now _ fetch r hf ht
    · have hle := hstale e rec h
      simp only [h, if_neg (by omega : ¬ e > now)]
      exact fetchAndStore_ok st now _ fetch r hf ht
  · intro hlt
    unfold get_tenant
    have hl : (st.afterStore now (pyStripLower slug) r).cache.lookup
        (pyStripLower slug) = some (now + st.cacheTtlSeconds, r) :=
      dictSet_lookup st.cache (pyStripLower slug) (now + st.cacheTtlSeconds, r)
    simp only [hl]
    rw [if_pos hlt]
  · intro hge
    unfold get_tenant
    have hl : (st.afterStore now (pyStripLower slug) r).cache.lookup
        (pyStripLower slug) = some (now + st.cacheTtlSeconds, r) :=
      dictSet_lookup st.cache (pyStripLower slug) (now + st.cacheTtlSeconds, r)
    simp only [hl, if_neg (by omega : ¬ now + st.cacheTtlSeconds > now3),
      fetchAndStore_calls]
  · intro h0
    unfold get_tenant
    rcases h : st.cache.lookup (pyStripLower slug) with _ | ⟨e, rec⟩
    · constructor
      · simp only [h]
        rw [fetchAndStore_ttl_zero st now _ fetch h0]
      · intro _
        simp only [h, fetchAndStore_calls]
    · constructor
      · by_cases he : e > now
        · simp only [h, if_pos he]
        · simp only [h, if_neg he]
          rw [fetchAndStore_ttl_zero st now _ fetch h0]
      · intro hemp
        rw [hemp] at h
        cases h

/-- Witness for C3 at a concrete client: TTL 30, lookups at times 0, 10
and 40, and a TTL-0 client that never caches. -/
theorem registry_cache_ttl_witness :
    (get_tenant (RegistryClientState.init 30) 0 "Grace" W.fetchOk =
      (.ok W.rec0,
       (RegistryClientState.init 30).afterStore 0 "grace" W.rec0, 1)) ∧
    (get_tenant ((RegistryClientState.init 30).afterStore 0 "grace" W.rec0)
        10 "Grace" W.fetchOk =
      (.ok W.rec0,
       (RegistryClientState.init 30).afterStore 0 "grace" W.rec0, 0)) ∧
    ((get_tenant ((RegistryClientState.init 30).afterStore 0 "grace" W.rec0)
        40 "Grace" W.fetchOk).2.2 = 1) ∧
    ((get_tenant (RegistryClientState.init 0) 5 "Grace" W.fetchOk).2.1.cache
        = [] ∧
     (get_tenant (RegistryClientState.init 0) 5 "Grace" W.fetchOk).2.2 = 1) := by
  have hs : pyStripLower "Grace" = "grace" := by decide
  have h := registry_cache_ttl (RegistryClientState.init 30) 0 10 40 "Grace"
    W.fetchOk W.fetchOk W.fetchOk W.rec0
  rw [hs] at h
  have h0 := registry_cache_ttl (RegistryClientState.init 0) 5 0 0 "Grace"
    W.fetchOk W.fetchOk W.fetchOk W.rec0
  refine ⟨?_, ?_, ?_, ?_⟩
  · exact h.2.1 (by intro e rec hc; simp [List.lookup] at hc) rfl (by decide)
  · exact h.2.2.1 (by decide)
  · exact h.2.2.2.1 (by decide)
  · have hz := h0.2.2.2.2 rfl
    exact ⟨hz.1, hz.2 rfl⟩

/-- C5 (counterexample): a transport error (here a connection failure) is
not converted into an `UpstreamError` with status 502 — `_fetch_tenant`
raises no `TenantRegistryError` at all on that input; the HTTP library's
exception escapes the call uncaught. -/
theorem fetch_tenant_transport_uncaught :
    _fetch_tenant (.transportError "connection refused") =
      .uncaught "httpx.TransportError" "connection refused" ∧
    isUpstream502 (_fetch_tenant (.transportError "connection refused"))
      = false ∧
    isRegistryError (_fetch_tenant (.transportError "connection refused"))
      = false := ⟨rfl, rfl, rfl⟩

/-- C5 (amended): `_fetch_tenant` yields `TenantRegistryError(404)` on a
404 response, `TenantRegistryError(502)` on any other response with status
≥ 400, a parsed `TenantRegistryRecord` (with the `tls_mode`/`status`
defaults) on any response with status < 400 and a well-formed body, while
transport errors — and malformed bodies — escape as uncaught exceptions of
other classes. -/
theorem fetch_tenant_error_mapping (resp : UpstreamResult) :
    (∀ body, resp = .response 404 body →
      _fetch_tenant resp = .registryError 404 "Tenant not found") ∧
    (∀ code body, resp = .response code body → 400 ≤ code → code ≠ 404 →
      _fetch_tenant resp = .registryError 502 "Tenant registry lookup failed") ∧
    (∀ code b, resp = .response code (some b) → code < 400 →
      _fetch_tenant resp = .ok
        { tenant_id := b.tenant_id, slug := b.slug, db_name := b.db_name,
          db_host := b.db_host, db_port := b.db_port, db_user := b.db_user,
          secret_ref := b.secret_ref, tls_mode := b.tls_mode.getD "disable",
          status := b.status.getD "unknown" }) ∧
    (∀ code, resp = .response code none → code < 400 →
      _fetch_tenant resp = .uncaught "json" "malformed resolve body") ∧
    (∀ m, resp = .transportError m →
      _fetch_tenant resp = .uncaught "httpx.TransportError" m) := by
  refine ⟨?_, ?_, ?_, ?_, ?_⟩
  · rintro body rfl
    rfl
  · rintro code body rfl hge hne
    have hb : (code == 404) = false := by
      simp [beq_eq_false_iff_ne, hne]
    simp [_fetch_tenant, hb, hge]
  · rintro code b rfl hlt
    have hb : (code == 404) = false := by
      simp only [beq_eq_false_iff_ne]
      omega
    simp [_fetch_tenant, hb, Nat.not_le.mpr hlt]
  · rintro code rfl hlt
    have hb : (code == 404) = false := by
      simp only [beq_eq_false_iff_ne]
      omega
    simp [_fetch_tenant, hb, Nat.not_le.mpr hlt]
  · rintro m rfl
    rfl

/-- Witness for the amended C5 at concrete responses: a 500 maps to a 502
registry error and a 404 to a 404 registry error. -/
theorem fetch_tenant_error_mapping_witness :
    _fetch_tenant (.response 500 none) =
      .registryError 502 "Tenant registry lookup failed" ∧
    _fetch_tenant (.response 404 none) =
      .registryError 404 "Tenant not found" := by
  constructor
  · exact (fetch_tenant_error_mapping (.response 500 none)).2.1 500 none rfl
      (by decide) (by decide)
  · exact (fetch_tenant_error_mapping (.response 404 none)).1 none rfl

/-- C9: outside the `dev` environment the resolved tenant slug is
independent of the `x-tenant-slug` header — any two requests identical but
for that header resolve to the same slug or the same rejection; in `dev`,
a present (non-empty) header is used directly, trimmed and lower-cased,
bypassing subdomain parsing entirely. -/
theorem tenant_header_dev_only (env : String) (h1 h2 : Option String)
    (host : Option String) (s : String) :
    (env ≠ "dev" → _resolve_slug env h1 host = _resolve_slug env h2 host) ∧
    (s ≠ "" → ∀ host2,
      _resolve_slug "dev" (some s) host2 = .ok (pyStripLower s)) := by
  constructor
  · intro hne
    have he : (env == "dev") = false := beq_eq_false_iff_ne.mpr hne
    simp only [_resolve_slug, he, Bool.false_and, Bool.false_eq_true,
      if_false]
  · intro hs host2
    have ht : pyTruthy (some s) = true := by
      simp [pyTruthy, bne_iff_ne, hs]
    simp [_resolve_slug, ht]

/-- Witness for C9: in production a spoofed header changes nothing; in dev
the header short-circuits resolution. -/
theorem tenant_header_dev_only_witness :
    _resolve_slug "production" (some "evil") (some "grace.example.com") =
      _resolve_slug "production" none (some "grace.example.com") ∧
    _resolve_slug "dev" (some " Grace ") (some "other.example.com") =
      .ok (pyStripLower " Grace ") := by
  constructor
  · exact (tenant_header_dev_only "production" (some "evil") none
      (some "grace.example.com") "x").1 (by decide)
  · exact (tenant_header_dev_only "dev" none none none " Grace ").2
      (by decide) (some "other.example.com")

/-! ### Pair-list lookup lemmas -/

/-- A hit in the left part of an appended association list. -/
theorem pl_lookup_append_left {α : Type} (l1 l2 : List (String × α))
    (k : String) (v : α) (h : l1.lookup k = some v) :
    (l1 ++ l2).lookup k = some v := by
  induction l1 with
  | nil => cases h
  | cons a t ih =>
    rcases a with ⟨a1, a2⟩
    by_cases hk : k == a1
    · simp [List.lookup, hk] at h ⊢
      exact h
    · simp only [List.lookup, Bool.not_eq_true] at h
      rw [Bool.not_eq_true] at hk
      rw [hk] at h
      simp only [List.cons_append, List.lookup, hk]
      exact ih h

/-- A miss in the left part of an appended association list. -/
theorem pl_lookup_append_right {α : Type} (l1 l2 : List (String × α))
    (k : String) (h : l1.lookup k = none) :
    (l1 ++ l2).lookup k = l2.lookup k := by
  induction l1 with
  | nil => rfl
  | cons a t ih =>
    rcases a with ⟨a1, a2⟩
    by_cases hk : k == a1
    · simp [List.lookup, hk] at h
    · rw [Bool.not_eq_true] at hk
      simp only [List.lookup, hk] at h
      simp only [List.cons_append, List.lookup, hk]
      exact ih h

/-- A successful lookup locates a member of the list. -/
theorem pl_lookup_mem {α : Type} {l : List (String × α)} {k : String}
    {v : α} (h : l.lookup k = some v) : (k, v) ∈ l := by
  induction l with
  | nil => cases h
  | cons a t ih =>
    rcases a with ⟨a1, a2⟩
    by_cases hk : k == a1
    · simp [List.lookup, hk] at h
      subst h
      have : k = a1 := by simpa using hk
      subst this
      exact List.mem_cons_self _ _
    · rw [Bool.not_eq_true] at hk
      simp only [List.lookup, hk] at h
      exact List.mem_cons_of_mem _ (ih h)

/-- In a list whose values are distinct, one value belongs to one key. -/
theorem pl_value_inj {α : Type} [DecidableEq α] {l : List (String × α)}
    (hnd : (l.map Prod.snd).Nodup) {k1 k2 : String} {v : α}
    (h1 : (k1, v) ∈ l) (h2 : (k2, v) ∈ l) : k1 = k2 := by
  induction l with
  | nil => cases h1
  | cons a t ih =>
    rcases a with ⟨a1, a2⟩
    simp only [List.map_cons, List.nodup_cons] at hnd
    rcases List.mem_cons.mp h1 with hh1 | ht1 <;>
      rcases List.mem_cons.mp h2 with hh2 | ht2
    · rw [Prod.mk.injEq] at hh1 hh2
      rw [hh1.1, hh2.1]
    · rw [Prod.mk.injEq] at hh1
      exfalso
      exact hnd.1 (hh1.2 ▸ List.mem_map_of_mem Prod.snd ht2)
    · rw [Prod.mk.injEq] at hh2
      exfalso
      exact hnd.1 (hh2.2 ▸ List.mem_map_of_mem Prod.snd ht1)
    · exact ih hnd.2 ht1 ht2

/-- String append is left-cancellative. -/
theorem string_append_cancel_left {s t u : String} (h : s ++ t = s ++ u) :
    t = u := by
  have hd : s.data ++ t.data = s.data ++ u.data := by
    have h1 := congrArg String.data h
    simpa [String.data_append] using h1
  exact String.ext (List.append_cancel_left hd)

/-- Connection keys of coordinates differing only in `secret_ref` differ. -/
theorem connectionKey_secret_ne (h p n u : String) {r1 r2 : String}
    (hne : r1 ≠ r2) :
    connectionKey h p n u r1 ≠ connectionKey h p n u r2 := by
  intro heq
  exact hne (string_append_cancel_left heq)

/-- A failed lookup means the key is not among the list's keys. -/
theorem pl_lookup_none_keys {α : Type} {l : List (String × α)} {k : String}
    (h : l.lookup k = none) : k ∉ l.map Prod.fst := by
  induction l with
  | nil => simp
  | cons a t ih =>
    rcases a with ⟨a1, a2⟩
    by_cases hk : k == a1
    · simp [List.lookup, hk] at h
    · rw [Bool.not_eq_true] at hk
      simp only [List.lookup, hk] at h
      simp only [List.map_cons, List.mem_cons]
      rintro (rfl | hm)
      · simp at hk
      · exact ih h hm

/-- A cache hit leaves the session-manager state unchanged. -/
theorem lcc_hit (st : SessionManagerState) (key : String) (f : Nat)
    (h : st.engineCache.lookup key = some f) :
    lockedCheckThenCreate st key = (f, st) := by
  unfold lockedCheckThenCreate
  rw [h]

/-- A cache miss creates a fresh factory and appends the entry. -/
theorem lcc_miss (st : SessionManagerState) (key : String)
    (h : st.engineCache.lookup key = none) :
    lockedCheckThenCreate st key =
      (st.nextFactory,
       { engineCache := st.engineCache ++ [(key, st.nextFactory)],
         nextFactory := st.nextFactory + 1 }) := by
  unfold lockedCheckThenCreate
  rw [h]

/-- After check-then-create, the key is cached with the returned factory. -/
theorem lcc_lookup_self (st : SessionManagerState) (key : String) :
    (lockedCheckThenCreate st key).2.engineCache.lookup key =
      some (lockedCheckThenCreate st key).1 := by
  rcases h : st.engineCache.lookup key with _ | f
  · rw [lcc_miss st key h]
    dsimp only
    rw [pl_lookup_append_right _ _ _ h]
    simp [List.lookup]
  · rw [lcc_hit st key f h]
    exact h

/-- Check-then-create is idempotent on the same key. -/
theorem lcc_stable (st : SessionManagerState) (key : String) :
    lockedCheckThenCreate (lockedCheckThenCreate st key).2 key =
      ((lockedCheckThenCreate st key).1,
       (lockedCheckThenCreate st key).2) := by
  exact lcc_hit _ _ _ (lcc_lookup_self st key)

/-- Check-then-create never evicts a cache entry. -/
theorem lcc_mono (st : SessionManagerState) (key : String) :
    ∀ kv ∈ st.engineCache, kv ∈ (lockedCheckThenCreate st key).2.engineCache := by
  intro kv hkv
  rcases h : st.engineCache.lookup key with _ | f
  · rw [lcc_miss st key h]
    exact List.mem_append_left _ hkv
  · rw [lcc_hit st key f h]
    exact hkv

/-- Check-then-create preserves well-formedness. -/
theorem lcc_wf (st : SessionManagerState) (key : String)
    (hwf : st.wf) : (lockedCheckThenCreate st key).2.wf := by
  rcases h : st.engineCache.lookup key with _ | f
  · rw [lcc_miss st key h]
    obtain ⟨hk, hv, hb⟩ := hwf
    refine ⟨?_, ?_, ?_⟩
    · simp only [List.map_append, List.map_cons, List.map_nil]
      rw [List.nodup_append]
      exact ⟨hk, List.nodup_singleton _,
        by simpa using fun hm => pl_lookup_none_keys h hm⟩
    · simp only [List.map_append, List.map_cons, List.map_nil]
      rw [List.nodup_append]
      refine ⟨hv, List.nodup_singleton _, ?_⟩
      intro v hvmem
      simp only [List.mem_singleton]
      intro heq
      subst heq
      obtain ⟨⟨k0, v0⟩, hmem, hsnd⟩ := List.mem_map.mp hvmem
      have := hb _ hmem
      simp only at hsnd
      omega
    · intro kv hkv
      rcases List.mem_append.mp hkv with hm | hm
      · have := hb _ hm
        simp only
        omega
      · simp only [List.mem_singleton] at hm
        subst hm
        simp
  · rw [lcc_hit st key f h]
    exact hwf

/-- Factories created for distinct keys are distinct (given a well-formed
starting state): the factory returned for `key2` after serving `key1`
differs from the factory served for `key1`. -/
theorem lcc_distinct (st : SessionManagerState) (key1 key2 : String)
    (hwf : st.wf) (hne : key1 ≠ key2) :
    (lockedCheckThenCreate (lockedCheckThenCreate st key1).2 key2).1 ≠
      (lockedCheckThenCreate st key1).1 := by
  obtain ⟨hk, hv, hb⟩ := hwf
  rcases h1 : st.engineCache.lookup key1 with _ | f1
  · rw [lcc_miss st key1 h1]
    dsimp only
    rcases h2 : (st.engineCache ++ [(key1, st.nextFactory)]).lookup key2
      with _ | f2
    · rw [lcc_miss _ key2 h2]
      simp only [lcc_miss st key1 h1]
      omega
    · rw [lcc_hit _ key2 f2 h2]
      simp only [lcc_miss st key1 h1]
      have hmem := pl_lookup_mem h2
      rcases List.mem_append.mp hmem with hm | hm
      · have := hb _ hm
        simp only at this
        omega
      · simp only [List.mem_singleton, Prod.mk.injEq] at hm
        exact absurd hm.1.symm hne
  · rw [lcc_hit st key1 f1 h1]
    rcases h2 : st.engineCache.lookup key2 with _ | f2
    · rw [lcc_miss st key2 h2]
      have := hb _ (pl_lookup_mem h1)
      simp only at this ⊢
      omega
    · rw [lcc_hit st key2 f2 h2]
      simp only
      intro heq
      subst heq
      exact hne (pl_value_inj hv (pl_lookup_mem h2) (pl_lookup_mem h1)).symm

/-- C4: on one session manager, two `get_session` calls with identical
tenant coordinates return sessions bound to the same factory and leave the
cache unchanged; no factory is ever removed and at most one exists per
connection identity (well-formedness is preserved); coordinates differing
only in `secret_ref` are served by a distinct factory.  The
check-then-create sequence is `lockedCheckThenCreate`, the section the
manager executes under its mutual-exclusion lock, modelled as one atomic
state transition. -/
theorem session_pool_identity (st : SessionManagerState)
    (ctx : TenantContext) (r2 pw pw2 : String) (env : String)
    (dns : String → Bool) (sget : String → Except String String)
    (hwf : st.wf) (hpw : sget ctx.secret_ref = .ok pw)
    (hpw2 : sget r2 = .ok pw2) (hr2 : r2 ≠ ctx.secret_ref) :
    ∃ s1 st1, get_session st ctx env dns sget = .ok (s1, st1) ∧
      get_session st1 ctx env dns sget = .ok (s1, st1) ∧
      st1.wf ∧
      (∀ kv ∈ st.engineCache, kv ∈ st1.engineCache) ∧
      (∀ s2 st2,
        get_session st1 { ctx with secret_ref := r2 } env dns sget
          = .ok (s2, st2) → s2.factory ≠ s1.factory) := by
  have hkey : connectionKey (normalizeHost env dns ctx.db_host) ctx.db_port
      ctx.db_name ctx.db_user ctx.secret_ref ≠
      connectionKey (normalizeHost env dns ctx.db_host) ctx.db_port
      ctx.db_name ctx.db_user r2 :=
    connectionKey_secret_ne _ _ _ _ (fun h => hr2 h.symm)
  refine ⟨⟨(lockedCheckThenCreate st
      (connectionKey (normalizeHost env dns ctx.db_host) ctx.db_port
        ctx.db_name ctx.db_user ctx.secret_ref)).1⟩,
    (lockedCheckThenCreate st
      (connectionKey (normalizeHost env dns ctx.db_host) ctx.db_port
        ctx.db_name ctx.db_user ctx.secret_ref)).2,
    ?_, ?_, lcc_wf _ _ hwf, lcc_mono _ _, ?_⟩
  · simp only [get_session, hpw]
  · simp only [get_session, hpw, lcc_stable]
  · intro s2 st2 hok
    simp only [get_session, hpw2] at hok
    rw [Except.ok.injEq, Prod.mk.injEq] at hok
    have hs2 := hok.1
    subst hs2
    exact lcc_distinct st _ _ hwf hkey

/-- Witness for C4 at a concrete manager and tenant context. -/
theorem session_pool_identity_witness :
    ∃ s1 st1,
      get_session ⟨[], 0⟩ W.ctx0 "production" W.dnsAll W.sgetOk
        = .ok (s1, st1) ∧
      get_session st1 W.ctx0 "production" W.dnsAll W.sgetOk
        = .ok (s1, st1) ∧
      st1.wf ∧
      (∀ kv ∈ ([] : List (String × Nat)), kv ∈ st1.engineCache) ∧
      (∀ s2 st2,
        get_session st1 { W.ctx0 with secret_ref := "other-ref" }
          "production" W.dnsAll W.sgetOk = .ok (s2, st2) →
        s2.factory ≠ s1.factory) :=
  session_pool_identity ⟨[], 0⟩ W.ctx0 "other-ref" "pw" "pw" "production"
    W.dnsAll W.sgetOk (by constructor <;> simp) rfl rfl (by decide)

/-- `get_config_value` only ever touches the `tenant_config` table. -/
theorem get_config_value_tables (db : TenantDb) (k : String)
    (d : Option Rat) :
    (get_config_value db k d).2.recognition_results = db.recognition_results ∧
    (get_config_value db k d).2.visit_events = db.visit_events ∧
    (get_config_value db k d).2.face_profiles = db.face_profiles ∧
    (get_config_value db k d).2.idempotency_keys = db.idempotency_keys ∧
    (get_config_value db k d).2.gate_sessions = db.gate_sessions ∧
    (get_config_value db k d).2.message_logs = db.message_logs ∧
    (get_config_value db k d).2.rule_runs = db.rule_runs := by
  unfold get_config_value
  rcases db.tenant_config.lookup k with _ | v
  · dsimp only
    rcases d with _ | d0
    · rcases DEFAULT_CONFIG.lookup k with _ | v0 <;> exact ⟨rfl, rfl, rfl, rfl, rfl, rfl, rfl⟩
    · exact ⟨rfl, rfl, rfl, rfl, rfl, rfl, rfl⟩
  · exact ⟨rfl, rfl, rfl, rfl, rfl, rfl, rfl⟩

/-- The threshold computation only ever touches `tenant_config`. -/
theorem effectiveMinConfidence_tables (db : TenantDb) :
    (effectiveMinConfidence db).2.recognition_results
        = db.recognition_results ∧
    (effectiveMinConfidence db).2.visit_events = db.visit_events ∧
    (effectiveMinConfidence db).2.face_profiles = db.face_profiles ∧
    (effectiveMinConfidence db).2.idempotency_keys = db.idempotency_keys ∧
    (effectiveMinConfidence db).2.gate_sessions = db.gate_sessions ∧
    (effectiveMinConfidence db).2.message_logs = db.message_logs := by
  unfold effectiveMinConfidence
  have h1 := get_config_value_tables db "recognition_threshold" none
  rcases h : get_config_value db "recognition_threshold" none with ⟨v, db1⟩
  rw [h] at h1
  rcases v with _ | t
  · dsimp only
    have h3 := get_config_value_tables db1 "rekognition_min_confidence" (some 90)
    rcases h2 : get_config_value db1 "rekognition_min_confidence" (some 90)
      with ⟨v2, db2⟩
    rw [h2] at h3
    rcases v2 with _ | v2' <;>
      exact ⟨h3.1.trans h1.1, h3.2.1.trans h1.2.1, h3.2.2.1.trans h1.2.2.1,
        h3.2.2.2.1.trans h1.2.2.2.1, h3.2.2.2.2.1.trans h1.2.2.2.2.1,
        h3.2.2.2.2.2.1.trans h1.2.2.2.2.2.1⟩
  · exact ⟨h1.1, h1.2.1, h1.2.2.1, h1.2.2.2.1, h1.2.2.2.2.1,
      h1.2.2.2.2.2.1⟩

/-- The configuration reads of the recognition job only ever touch
`tenant_config`. -/
theorem recJobCfgDb_tables (db : TenantDb) :
    (recJobCfgDb db).recognition_results = db.recognition_results ∧
    (recJobCfgDb db).visit_events = db.visit_events ∧
    (recJobCfgDb db).face_profiles = db.face_profiles ∧
    (recJobCfgDb db).idempotency_keys = db.idempotency_keys ∧
    (recJobCfgDb db).gate_sessions = db.gate_sessions ∧
    (recJobCfgDb db).message_logs = db.message_logs := by
  have h1 := effectiveMinConfidence_tables db
  have h2 := get_config_value_tables (effectiveMinConfidence db).2
    "dedupe_window_seconds" (some 300)
  exact ⟨h2.1.trans h1.1, h2.2.1.trans h1.2.1, h2.2.2.1.trans h1.2.2.1,
    h2.2.2.2.1.trans h1.2.2.2.1, h2.2.2.2.2.1.trans h1.2.2.2.2.1,
    h2.2.2.2.2.2.1.trans h1.2.2.2.2.2⟩

/-- A secret-store failure terminates the recognition job before any
database access. -/
theorem recognition_job_secret_fail (db : TenantDb) (args : RecJobArgs)
    (env : RecJobEnv) (hsec : env.secret_ok = false) :
    recognition_job db args env = (db, args.job_id) := by
  unfold recognition_job
  rw [hsec]
  rfl

/-- A duplicate `frame_id` in either unique column makes the commit raise
`IntegrityError`; the rollback leaves only the configuration reads. -/
theorem recognition_job_dup (db : TenantDb) (args : RecJobArgs)
    (env : RecJobEnv) (hsec : env.secret_ok = true)
    (hdup : ((recJobCfgDb db).recognition_results.any
        (fun r => r.frame_id == args.frame_id) ||
      (recJobCfgDb db).visit_events.any
        (fun v => v.frame_id == args.frame_id)) = true) :
    recognition_job db args env = (recJobCfgDb db, args.job_id) := by
  unfold recognition_job
  rw [hsec]
  simp only [Bool.not_true, Bool.false_eq_true, if_false, hdup, if_true]

/-- With a fresh `frame_id` the recognition job commits both rows and
marks the frame's idempotency record succeeded. -/
theorem recognition_job_commit (db : TenantDb) (args : RecJobArgs)
    (env : RecJobEnv) (hsec : env.secret_ok = true)
    (hr : (recJobCfgDb db).recognition_results.any
      (fun r => r.frame_id == args.frame_id) = false)
    (hv : (recJobCfgDb db).visit_events.any
      (fun v => v.frame_id == args.frame_id) = false) :
    recognition_job db args env =
      ({ recJobCfgDb db with
         recognition_results :=
           (recJobCfgDb db).recognition_results ++ [recRowOf db args env],
         visit_events :=
           (recJobCfgDb db).visit_events ++ [visitRowOf db args env],
         idempotency_keys := (recJobCfgDb db).idempotency_keys.map (fun k =>
           if k.key == args.frame_id then
             { k with status := "succeeded", response_ref := args.job_id }
           else k) },
       args.job_id) := by
  unfold recognition_job
  rw [hsec]
  simp only [Bool.not_true, Bool.false_eq_true, if_false, hr, hv,
    Bool.or_self, if_true]

/-- C2: the recognition decision is computed from the effective
minimum-confidence threshold — a configured `recognition_threshold` ≤ 1 is
rescaled ×100 — as follows: with a best candidate at confidence ≥
threshold and an active enrolled profile for that exact face id the
decision is `matched` with that profile's person (so equality with the
threshold matches); with confidence ≥ threshold but no active profile the
decision stays `unknown` with reason `no_match`; below the threshold the
reason is `below_threshold`; with no candidate at all the reason is
`no_match`; and the job persists exactly this decision in the new
`RecognitionResult` row. -/
theorem recognition_threshold_decision (db : TenantDb) (args : RecJobArgs)
    (env : RecJobEnv) (t c m : Rat) (f : String) (p : FaceProfileRow) :
    (db.tenant_config.lookup "recognition_threshold" = some t →
      (effectiveMinConfidence db).1 = if t ≤ 1 then t * 100 else t) ∧
    (env.provider_configured = true → env.recognize_raises = none →
     args.face_present ≠ some false →
     env.best_face_id = some f → f ≠ "" → env.best_confidence = some c →
     ((m ≤ c → lookupActiveProfile db.face_profiles f = some p →
       recognitionDecision db.face_profiles args.face_present env m =
         { decision := "matched", rejection_reason := none,
           person_id := some p.person_id, provider_code := none }) ∧
      (m ≤ c → lookupActiveProfile db.face_profiles f = none →
       recognitionDecision db.face_profiles args.face_present env m =
         { decision := "unknown", rejection_reason := some "no_match",
           person_id := none, provider_code := none }) ∧
      (c < m →
       recognitionDecision db.face_profiles args.face_present env m =
         { decision := "unknown", rejection_reason := some "below_threshold",
           person_id := none, provider_code := none }))) ∧
    (env.provider_configured = true → env.recognize_raises = none →
     args.face_present ≠ some false → env.best_face_id = none →
     recognitionDecision db.face_profiles args.face_present env m =
       { decision := "unknown", rejection_reason := some "no_match",
         person_id := none, provider_code := none }) ∧
    (env.secret_ok = true →
     db.recognition_results.any (fun r => r.frame_id == args.frame_id)
       = false →
     db.visit_events.any (fun v => v.frame_id == args.frame_id) = false →
     ∃ row, (recognition_job db args env).1.recognition_results
         = db.recognition_results ++ [row] ∧
       row.decision = (recognitionDecision db.face_profiles
         args.face_present env (effectiveMinConfidence db).1).decision ∧
       row.rejection_reason = (recognitionDecision db.face_profiles
         args.face_present env (effectiveMinConfidence db).1).rejection_reason ∧
       row.person_id = (recognitionDecision db.face_profiles
         args.face_present env (effectiveMinConfidence db).1).person_id) := by
  have htbl := recJobCfgDb_tables db
  refine ⟨?_, ?_, ?_, ?_⟩
  · intro ht
    unfold effectiveMinConfidence get_config_value
    rw [ht]
  · intro hpc hraise hfp hbest hfne hconf
    have hfpb : (args.face_present == some false) = false :=
      beq_eq_false_iff_ne.mpr hfp
    have hpt : pyTruthy (some f) = true := by
      simp [pyTruthy, bne_iff_ne, hfne]
    refine ⟨?_, ?_, ?_⟩
    · intro hm hprof
      simp [recognitionDecision, hfpb, hpc, hraise, hpt, hconf, hbest,
        ge_iff_le, hm, hprof]
    · intro hm hprof
      simp [recognitionDecision, hfpb, hpc, hraise, hpt, hconf, hbest,
        ge_iff_le, hm, hprof]
    · intro hm
      simp [recognitionDecision, hfpb, hpc, hraise, hpt, hconf, hbest,
        ge_iff_le, not_le.mpr hm]
  · intro hpc hraise hfp hbest
    have hfpb : (args.face_present == some false) = false :=
      beq_eq_false_iff_ne.mpr hfp
    simp [recognitionDecision, hfpb, hpc, hraise, hbest, pyTruthy]
  · intro hsec hr hv
    have hr2 : (recJobCfgDb db).recognition_results.any
        (fun r => r.frame_id == args.frame_id) = false := by
      rw [htbl.1]; exact hr
    have hv2 : (recJobCfgDb db).visit_events.any
        (fun v => v.frame_id == args.frame_id) = false := by
      rw [htbl.2.1]; exact hv
    have hc := recognition_job_commit db args env hsec hr2 hv2
    refine ⟨recRowOf db args env, ?_, ?_, ?_, ?_⟩
    · rw [hc]
      dsimp only
      rw [htbl.1]
    · show (recRowOf db args env).decision = _
      unfold recRowOf
      dsimp only
      rw [htbl.2.2.1]
    · show (recRowOf db args env).rejection_reason = _
      unfold recRowOf
      dsimp only
      rw [htbl.2.2.1]
    · show (recRowOf db args env).person_id = _
      unfold recRowOf
      dsimp only
      rw [htbl.2.2.1]

/-- Witness for C2 at a concrete tenant: configured threshold 85, best
candidate `face-1` at confidence exactly 85 (the boundary), one active
enrolled profile — the decision is `matched` and the job persists it. -/
theorem recognition_threshold_decision_witness :
    ((effectiveMinConfidence W.dbRec).1 =
      if (85 : Rat) ≤ 1 then 85 * 100 else 85) ∧
    (recognitionDecision W.dbRec.face_profiles W.argsRec.face_present
        W.envRec 85 =
      { decision := "matched", rejection_reason := none,
        person_id := some W.profile0.person_id, provider_code := none }) ∧
    (∃ row,
      (recognition_job W.dbRec W.argsRec W.envRec).1.recognition_results
          = W.dbRec.recognition_results ++ [row] ∧
      row.decision = (recognitionDecision W.dbRec.face_profiles
        W.argsRec.face_present W.envRec
        (effectiveMinConfidence W.dbRec).1).decision ∧
      row.rejection_reason = (recognitionDecision W.dbRec.face_profiles
        W.argsRec.face_present W.envRec
        (effectiveMinConfidence W.dbRec).1).rejection_reason ∧
      row.person_id = (recognitionDecision W.dbRec.face_profiles
        W.argsRec.face_present W.envRec
        (effectiveMinConfidence W.dbRec).1).person_id) := by
  have h := recognition_threshold_decision W.dbRec W.argsRec W.envRec
    85 85 85 "face-1" W.profile0
  refine ⟨h.1 (by decide), ?_, ?_⟩
  · exact (h.2.1 rfl rfl (by decide) rfl (by decide) rfl).1
      (by decide) (by decide)
  · exact h.2.2.2 rfl rfl rfl

/-- A `false` result of `any (· == s)` keeps `s` out of the mapped list. -/
theorem not_mem_map_of_any_beq_false {α : Type} (f : α → String)
    (l : List α) (s : String)
    (h : l.any (fun x => f x == s) = false) : s ∉ l.map f := by
  intro hm
  obtain ⟨x, hx, hfx⟩ := List.mem_map.mp hm
  have hall := List.any_eq_false.mp h x hx
  simp [hfx] at hall

/-- When the configuration rows the recognition job reads already exist,
its configuration pass leaves the database untouched. -/
theorem recJobCfgDb_id (db : TenantDb) (t d : Rat)
    (h1 : db.tenant_config.lookup "recognition_threshold" = some t)
    (h2 : db.tenant_config.lookup "dedupe_window_seconds" = some d) :
    recJobCfgDb db = db := by
  unfold recJobCfgDb effectiveMinConfidence get_config_value
  rw [h1]
  dsimp only
  rw [h2]

/-- Every recognition-job run preserves the at-most-one-result-per-frame
invariant of both unique `frame_id` columns. -/
theorem recognition_job_preserves_unique (db : TenantDb)
    (args : RecJobArgs) (env : RecJobEnv) (h : uniqueFrameIds db) :
    uniqueFrameIds (recognition_job db args env).1 := by
  have htbl := recJobCfgDb_tables db
  by_cases hsec : env.secret_ok = true
  · by_cases hdup : ((recJobCfgDb db).recognition_results.any
        (fun r => r.frame_id == args.frame_id) ||
      (recJobCfgDb db).visit_events.any
        (fun v => v.frame_id == args.frame_id)) = true
    · rw [recognition_job_dup db args env hsec hdup]
      unfold uniqueFrameIds at h ⊢
      rw [htbl.1, htbl.2.1]
      exact h
    · have hsplit := Bool.or_eq_false_iff.mp (Bool.eq_false_iff.mpr hdup)
      rw [recognition_job_commit db args env hsec hsplit.1 hsplit.2]
      unfold uniqueFrameIds at h ⊢
      dsimp only
      rw [htbl.1, htbl.2.1] at hsplit ⊢
      constructor
      · rw [List.map_append]
        rw [List.nodup_append]
        refine ⟨h.1, List.nodup_singleton _, ?_⟩
        intro x hmem
        have hnm := not_mem_map_of_any_beq_false _ _ _ hsplit.1
        simp only [List.map_cons, List.map_nil, List.mem_singleton]
        intro heq
        subst heq
        exact hnm (by simpa [recRowOf] using hmem)
      · rw [List.map_append]
        rw [List.nodup_append]
        refine ⟨h.2, List.nodup_singleton _, ?_⟩
        intro x hmem
        have hnm := not_mem_map_of_any_beq_false _ _ _ hsplit.2
        simp only [List.map_cons, List.map_nil, List.mem_singleton]
        intro heq
        subst heq
        exact hnm (by simpa [visitRowOf] using hmem)
  · rw [recognition_job_secret_fail db args env (Bool.eq_false_iff.mpr
      (fun hc => hsec hc))]
    exact h

/-- C10 (counterexample): a duplicate direct invocation of the
recognition job does not leave the tenant database unchanged — on a
tenant whose configuration rows are not yet materialized, the
configuration reads committed before the failing insert persist
(`tenant_config` gains the default rows), even though the rolled-back
transaction leaves the result tables untouched. -/
theorem recognition_job_dup_changes_db :
    (recognition_job W.dbDup W.argsRec W.envRec).1 ≠ W.dbDup ∧
    (recognition_job W.dbDup W.argsRec W.envRec).1.recognition_results
      = W.dbDup.recognition_results := by
  constructor
  · decide
  · decide

/-- C10 (amended): on a direct duplicate invocation — a frame id already
present in `RecognitionResult` or `VisitEvent` — the commit's integrity
error is caught, the transaction is rolled back, and the result tables,
the idempotency ledger and every other table except `tenant_config` are
unchanged; when the configuration rows the job reads already exist the
database is left entirely unchanged; and the at-most-one-result-per-frame
invariant is preserved. -/
theorem recognition_job_duplicate_rollback (db : TenantDb)
    (args : RecJobArgs) (env : RecJobEnv) (t d : Rat)
    (hsec : env.secret_ok = true)
    (hdup : db.recognition_results.any
        (fun r => r.frame_id == args.frame_id) = true ∨
      db.visit_events.any (fun v => v.frame_id == args.frame_id) = true) :
    (recognition_job db args env).1.recognition_results
        = db.recognition_results ∧
    (recognition_job db args env).1.visit_events = db.visit_events ∧
    (recognition_job db args env).1.idempotency_keys
        = db.idempotency_keys ∧
    (recognition_job db args env).1.gate_sessions = db.gate_sessions ∧
    (recognition_job db args env).1.message_logs = db.message_logs ∧
    (db.tenant_config.lookup "recognition_threshold" = some t →
     db.tenant_config.lookup "dedupe_window_seconds" = some d →
     (recognition_job db args env).1 = db) ∧
    (uniqueFrameIds db → uniqueFrameIds (recognition_job db args env).1) := by
  have htbl := recJobCfgDb_tables db
  have htbl2 := get_config_value_tables (effectiveMinConfidence db).2
    "dedupe_window_seconds" (some 300)
  have htblE := effectiveMinConfidence_tables db
  have hdup2 : ((recJobCfgDb db).recognition_results.any
      (fun r => r.frame_id == args.frame_id) ||
    (recJobCfgDb db).visit_events.any
      (fun v => v.frame_id == args.frame_id)) = true := by
    rw [htbl.1, htbl.2.1]
    rcases hdup with hr | hv
    · rw [hr]; rfl
    · rw [hv]; simp
  have hjob := recognition_job_dup db args env hsec hdup2
  refine ⟨?_, ?_, ?_, ?_, ?_, ?_, ?_⟩
  · rw [hjob]; exact htbl.1
  · rw [hjob]; exact htbl.2.1
  · rw [hjob]; exact htbl.2.2.2.1
  · rw [hjob]; exact htbl.2.2.2.2.1
  · rw [hjob]; exact htbl.2.2.2.2.2
  · intro h1 h2
    rw [hjob]
    exact recJobCfgDb_id db t d h1 h2
  · exact recognition_job_preserves_unique db args env

/-- Witness for the amended C10: on a tenant with materialized
configuration and an existing result for the submitted frame, the
duplicate job run leaves the database exactly unchanged and the
uniqueness invariant intact. -/
theorem recognition_job_duplicate_rollback_witness :
    (recognition_job W.dbDupCfg W.argsRec W.envRec).1.recognition_results
        = W.dbDupCfg.recognition_results ∧
    (recognition_job W.dbDupCfg W.argsRec W.envRec).1 = W.dbDupCfg ∧
    uniqueFrameIds (recognition_job W.dbDupCfg W.argsRec W.envRec).1 := by
  have h := recognition_job_duplicate_rollback W.dbDupCfg W.argsRec W.envRec
    85 300 rfl (Or.inl (by decide))
  exact ⟨h.1, h.2.2.2.2.2.1 (by decide) (by decide),
    h.2.2.2.2.2.2 (by decide)⟩

/-- After writing back an updated row, the lookup by id finds it. -/
theorem find_map_update (ml : List MessageLogRow) (logId : Nat)
    (l l' : MessageLogRow)
    (hfind : ml.find? (fun x => x.id == logId) = some l)
    (hid : l'.id = logId) :
    (ml.map (fun x => if x.id == l'.id then l' else x)).find?
      (fun x => x.id == logId) = some l' := by
  induction ml with
  | nil => cases hfind
  | cons a t ih =>
    by_cases ha : (a.id == logId) = true
    · have haid : (a.id == l'.id) = true := by
        rw [hid]; exact ha
      simp only [List.map_cons, haid, if_true, List.find?]
      rw [hid]
      simp
    · have hfind' : t.find? (fun x => x.id == logId) = some l := by
        have := hfind
        rw [List.find?] at this
        rwa [Bool.eq_false_iff.mpr ha] at this
      have hne : (a.id == l'.id) = false := by
        rw [hid]
        exact Bool.eq_false_iff.mpr ha
      simp only [List.map_cons, hne, Bool.false_eq_true, if_false,
        List.find?, Bool.eq_false_iff.mpr ha]
      exact ih hfind'

/-- A message-log row whose status is terminal makes the job a strict
no-op: no provider call, no database change. -/
theorem send_message_job_noop (db : TenantDb) (logId : Nat)
    (body : Option String) (env : MsgEnv) (now : Int) (l : MessageLogRow)
    (hfind : db.message_logs.find? (fun x => x.id == logId) = some l)
    (hq : l.status ≠ "queued") (hr : l.status ≠ "retry") :
    send_message_job db logId body env now true = (db, 0, "skipped") := by
  unfold send_message_job
  simp only [Bool.not_true, Bool.false_eq_true, if_false]
  rw [hfind]
  have hcond : (l.status == "queued" || l.status == "retry") = false := by
    simp [hq, hr]
  dsimp only
  rw [hcond]
  rfl

/-- From status `queued`/`retry`, every completed job run leaves the row
with a terminal status (`sent` or `failed`). -/
theorem send_message_job_terminal (db : TenantDb) (logId : Nat)
    (body : Option String) (env : MsgEnv) (now : Int) (l : MessageLogRow)
    (hfind : db.message_logs.find? (fun x => x.id == logId) = some l)
    (hqr : l.status = "queued" ∨ l.status = "retry") :
    ∃ l', (send_message_job db logId body env now true).1.message_logs.find?
        (fun x => x.id == logId) = some l' ∧
      (l'.status = "sent" ∨ l'.status = "failed") := by
  have hlid : l.id = logId := by
    have := List.find?_some hfind
    simpa using this
  have hstore : ∀ l2 : MessageLogRow, l2.id = logId →
      (storeMessageLog db l2).message_logs.find?
        (fun x => x.id == logId) = some l2 := by
    intro l2 h2
    unfold storeMessageLog
    exact find_map_update db.message_logs logId l l2 hfind h2
  unfold send_message_job
  simp only [Bool.not_true, Bool.false_eq_true, if_false]
  rw [hfind]
  have hcond : (l.status == "queued" || l.status == "retry") = true := by
    rcases hqr with h | h <;> simp [h]
  dsimp only
  rw [hcond]
  simp only [Bool.not_true, Bool.false_eq_true, if_false]
  by_cases hb : pyTruthy body = true
  · rw [hb]
    simp only [Bool.not_true, Bool.false_eq_true, if_false]
    set tpe := (if !(pyTruthy l.to_phone_enc) then
        match l.person_id with
        | some pid =>
          match db.people.find? (fun p => p.id == pid) with
          | some person => person.phone_enc
          | none => l.to_phone_enc
        | none => l.to_phone_enc
      else l.to_phone_enc) with htpe
    by_cases hp : pyTruthy tpe = true
    · rw [hp]
      simp only [Bool.not_true, Bool.false_eq_true, if_false]
      rcases hd : env.decrypt (tpe.getD "") with _ | phone
      · exact ⟨_, hstore _ hlid, Or.inr rfl⟩
      · by_cases hk : (pyLower env.provider_mode != "mock"
            && !(pyTruthy env.api_key)) = true
        · rw [hk]
          simp only [if_true]
          exact ⟨_, hstore _ hlid, Or.inr rfl⟩
        · rw [Bool.eq_false_iff.mpr hk]
          simp only [Bool.false_eq_true, if_false]
          by_cases hs : (env.provider_status == "sent") = true
          · exact ⟨_, hstore _ hlid, Or.inl (by simp [hs])⟩
          · exact ⟨_, hstore _ hlid,
              Or.inr (by simp [Bool.eq_false_iff.mpr hs])⟩
    · rw [Bool.eq_false_iff.mpr hp]
      simp only [Bool.not_false, if_true]
      exact ⟨_, hstore _ hlid, Or.inr rfl⟩
  · rw [Bool.eq_false_iff.mpr hb]
    simp only [Bool.not_false, if_true]
    exact ⟨_, hstore _ hlid, Or.inr rfl⟩

/-- C8: `send_message_job` on a `MessageLog` whose status is neither
`queued` nor `retry` is an idempotent no-op — no provider call, the
database (message log and linked idempotency record included) unchanged;
from `queued`/`retry` a completed run always leaves a terminal status
(`sent`/`failed`), so across any number of re-deliveries the row
transitions to a terminal status at most once and every later delivery is
a no-op. -/
theorem message_job_idempotent_noop (db : TenantDb) (logId : Nat)
    (body body2 : Option String) (env env2 : MsgEnv) (now now2 : Int)
    (l : MessageLogRow)
    (hfind : db.message_logs.find? (fun x => x.id == logId) = some l) :
    (l.status ≠ "queued" → l.status ≠ "retry" →
      send_message_job db logId body env now true = (db, 0, "skipped")) ∧
    ((l.status = "queued" ∨ l.status = "retry") →
      (∀ l',
        (send_message_job db logId body env now true).1.message_logs.find?
          (fun x => x.id == logId) = some l' →
        (l'.status = "sent" ∨ l'.status = "failed")) ∧
      send_message_job (send_message_job db logId body env now true).1
          logId body2 env2 now2 true
        = ((send_message_job db logId body env now true).1, 0, "skipped")) := by
  constructor
  · intro hq hr
    exact send_message_job_noop db logId body env now l hfind hq hr
  · intro hqr
    obtain ⟨l', hf, hst⟩ :=
      send_message_job_terminal db logId body env now l hfind hqr
    constructor
    · intro l'' hf''
      rw [hf] at hf''
      cases hf''
      exact hst
    · refine send_message_job_noop _ _ _ _ _ l' hf ?_ ?_
      · rcases hst with h | h <;> (rw [h]; decide)
      · rcases hst with h | h <;> (rw [h]; decide)

/-- Witness for C8 at a concrete tenant: re-delivery for an already-sent
log is a strict no-op; a queued log reaches a terminal status and the next
delivery is a no-op. -/
theorem message_job_idempotent_noop_witness :
    send_message_job W.dbMsg 1 (some "hello") W.envMsg 0 true
      = (W.dbMsg, 0, "skipped") ∧
    (∀ l' : MessageLogRow,
      List.find? (fun x => x.id == 2)
          ((send_message_job W.dbMsg 2 (some "hello") W.envMsg 0 true).1.message_logs)
        = some l' →
      (l'.status = "sent" ∨ l'.status = "failed")) ∧
    send_message_job
        (send_message_job W.dbMsg 2 (some "hello") W.envMsg 0 true).1
        2 (some "hello") W.envMsg 5 true
      = ((send_message_job W.dbMsg 2 (some "hello") W.envMsg 0 true).1,
         0, "skipped") := by
  have h1 := message_job_idempotent_noop W.dbMsg 1 (some "hello")
    (some "hello") W.envMsg W.envMsg 0 0 W.logSent rfl
  have h2 := message_job_idempotent_noop W.dbMsg 2 (some "hello")
    (some "hello") W.envMsg W.envMsg 0 5 W.logQueued rfl
  exact ⟨h1.1 (by decide) (by decide), (h2.2 (Or.inl rfl)).1,
    (h2.2 (Or.inl rfl)).2⟩

/-- The event trace of a rule-job run takes one of four shapes: nothing
(rule or run missing), a bare commit (skip / early return), a commit
followed only by dispatches (success), or a rollback followed by the
failure-recording commit. -/
theorem rule_job_trace_shape (db : TenantDb) (ruleId runId : Nat)
    (body : TenantDb → RuleBodyOutcome) :
    (run_rule_job db ruleId runId body).trace = [] ∨
    (run_rule_job db ruleId runId body).trace = [.commitEvt] ∨
    (∃ q : List (Nat × String), (run_rule_job db ruleId runId body).trace =
      .commitEvt :: List.map (fun x => RuleEvent.dispatchEvt x.1) q) ∨
    (run_rule_job db ruleId runId body).trace
      = [.rollbackEvt, .commitEvt] := by
  unfold run_rule_job
  rcases h1 : db.rules.find? (fun r => r.id == ruleId) with _ | rule0 <;>
    rcases h2 : db.rule_runs.find? (fun r => r.id == runId) with _ | run0 <;>
    rw [h1, h2]
  · left; rfl
  · left; rfl
  · left; rfl
  · dsimp only
    by_cases hs : (rule0.status != "active") = true
    · rw [if_pos hs]
      right; left; rfl
    · rw [if_neg (by simpa using hs)]
      rcases hb : body db with ⟨staged, stats, queued⟩ |
        ⟨staged, st, stats⟩ | ⟨committed, err⟩
      · right; right; left; exact ⟨queued, rfl⟩
      · right; left; rfl
      · right; right; right; rfl

/-- A rule-job run either re-raises nothing or dispatches nothing. -/
theorem rule_job_reraise_dispatch_pairs (db : TenantDb) (ruleId runId : Nat)
    (body : TenantDb → RuleBodyOutcome) :
    (run_rule_job db ruleId runId body).reraised = none ∨
    (run_rule_job db ruleId runId body).dispatched = [] := by
  unfold run_rule_job
  rcases h1 : db.rules.find? (fun r => r.id == ruleId) with _ | rule0 <;>
    rcases h2 : db.rule_runs.find? (fun r => r.id == runId) with _ | run0 <;>
    rw [h1, h2]
  · left; rfl
  · left; rfl
  · left; rfl
  · dsimp only
    by_cases hs : (rule0.status != "active") = true
    · rw [if_pos hs]
      left; rfl
    · rw [if_neg (by simpa using hs)]
      rcases body db with ⟨staged, stats, queued⟩ |
        ⟨staged, st, stats⟩ | ⟨committed, err⟩
      · left; rfl
      · left; rfl
      · right; rfl

/-- A rule-job run that re-raises dispatches nothing. -/
theorem rule_job_reraise_no_dispatch (db : TenantDb) (ruleId runId : Nat)
    (body : TenantDb → RuleBodyOutcome)
    (h : (run_rule_job db ruleId runId body).reraised.isSome = true) :
    (run_rule_job db ruleId runId body).dispatched = [] := by
  rcases rule_job_reraise_dispatch_pairs db ruleId runId body with hn | hd
  · rw [hn] at h
    cases h
  · exact hd

/-- C7: on an unhandled exception in a rule-job run the staged data
changes are rolled back (the database reverts to the body's last committed
state), the `RuleRun` is still recorded as `failed` with the error
captured, the exception is re-raised, and nothing is dispatched; queued
messages of a successful run are handed to the messaging pipeline only
after the run's commit — every dispatch event in the trace is preceded by
a commit event, and a run that re-raises dispatches nothing. -/
theorem rule_job_failure_and_dispatch (db : TenantDb) (ruleId runId : Nat)
    (body : TenantDb → RuleBodyOutcome) (rule : RuleRow) (run : RuleRunRow)
    (committed : TenantDb) (err : String) :
    (db.rules.find? (fun r => r.id == ruleId) = some rule →
     db.rule_runs.find? (fun r => r.id == runId) = some run →
     rule.status = "active" →
     body db = .raised committed err →
     run_rule_job db ruleId runId body =
       { db := setRunStatusStats committed runId "failed"
           (some (.errMsg err)),
         dispatched := [], reraised := some err,
         trace := [.rollbackEvt, .commitEvt] }) ∧
    (∀ staged stats queued,
      db.rules.find? (fun r => r.id == ruleId) = some rule →
      db.rule_runs.find? (fun r => r.id == runId) = some run →
      rule.status = "active" →
      body db = .completed staged stats queued →
      run_rule_job db ruleId runId body =
        { db := setRunStatusStats staged runId "completed" (some stats),
          dispatched := queued, reraised := none,
          trace := .commitEvt ::
            List.map (fun x => RuleEvent.dispatchEvt x.1) queued }) ∧
    (∀ i lg, (run_rule_job db ruleId runId body).trace.get? i
        = some (.dispatchEvt lg) →
      ∃ j, j < i ∧ (run_rule_job db ruleId runId body).trace.get? j
        = some .commitEvt) ∧
    ((run_rule_job db ruleId runId body).reraised.isSome = true →
      (run_rule_job db ruleId runId body).dispatched = []) := by
  refine ⟨?_, ?_, ?_, rule_job_reraise_no_dispatch db ruleId runId body⟩
  · intro h1 h2 hact hb
    unfold run_rule_job
    rw [h1, h2]
    have hs : (rule.status != "active") = false := by simp [hact]
    dsimp only
    rw [hs]
    simp only [Bool.false_eq_true, if_false]
    rw [hb]
  · intro staged stats queued h1 h2 hact hb
    unfold run_rule_job
    rw [h1, h2]
    have hs : (rule.status != "active") = false := by simp [hact]
    dsimp only
    rw [hs]
    simp only [Bool.false_eq_true, if_false]
    rw [hb]
  · intro i lg h
    rcases rule_job_trace_shape db ruleId runId body with hsh | hsh |
      ⟨q, hsh⟩ | hsh
    · rw [hsh] at h
      cases i <;> cases h
    · rw [hsh] at h
      rcases i with _ | n
      · cases h
      · cases n <;> cases h
    · rw [hsh] at h ⊢
      rcases i with _ | n
      · cases h
      · exact ⟨0, Nat.succ_pos n, rfl⟩
    · rw [hsh] at h
      rcases i with _ | n
      · cases h
      · rcases n with _ | m
        · cases h
        · rcases m with _ | k <;> cases h

/-- Witness for C7: a raising body rolls back and dispatches nothing; a
completing body dispatches its queued message after the commit. -/
theorem rule_job_failure_and_dispatch_witness :
    run_rule_job W.dbRule 1 2 W.bodyRaise =
      { db := setRunStatusStats W.dbRule 2 "failed"
          (some (.errMsg "boom")),
        dispatched := [], reraised := some "boom",
        trace := [.rollbackEvt, .commitEvt] } ∧
    run_rule_job W.dbRule 1 2 W.bodyOk =
      { db := setRunStatusStats W.dbRule 2 "completed"
          (some (.counts 1 1 0 0)),
        dispatched := [(5, "hi")], reraised := none,
        trace := [.commitEvt, .dispatchEvt 5] } := by
  have h1 := rule_job_failure_and_dispatch W.dbRule 1 2 W.bodyRaise
    W.ruleRow W.runRow W.dbRule "boom"
  have h2 := rule_job_failure_and_dispatch W.dbRule 1 2 W.bodyOk
    W.ruleRow W.runRow W.dbRule "unused"
  exact ⟨h1.1 rfl rfl rfl rfl,
    h2.2.1 W.dbRule (.counts 1 1 0 0) [(5, "hi")] rfl rfl rfl rfl⟩

/-- After the revoking update, no session of the gate is active. -/
theorem revoke_no_active (gateId : String) (sessions : List GateSessionRow) :
    ∀ s ∈ revokeActiveForGate gateId sessions,
      ¬(s.status = "active" ∧ s.gate_id = gateId) := by
  intro s hs
  obtain ⟨s0, hs0, heq⟩ := List.mem_map.mp hs
  by_cases hc : (s0.gate_id == gateId && s0.status == "active") = true
  · rw [if_pos hc] at heq
    rintro ⟨ha, -⟩
    rw [← heq] at ha
    simp at ha
  · rw [if_neg hc] at heq
    subst heq
    rintro ⟨ha, hg⟩
    exact hc (by simp [ha, hg])

/-- The revoking update only ever turns `active` into `revoked`: a session
that is active afterwards was active before, unchanged, and does not
belong to the revoked gate. -/
theorem revoke_active_src (gateId : String) (sessions : List GateSessionRow)
    (s : GateSessionRow) (hs : s ∈ revokeActiveForGate gateId sessions)
    (ha : s.status = "active") :
    s ∈ sessions ∧ s.gate_id ≠ gateId := by
  obtain ⟨s0, hs0, heq⟩ := List.mem_map.mp hs
  by_cases hc : (s0.gate_id == gateId && s0.status == "active") = true
  · rw [if_pos hc] at heq
    rw [← heq] at ha
    simp at ha
  · rw [if_neg hc] at heq
    subst heq
    refine ⟨hs0, fun hg => hc ?_⟩
    simp [ha, hg]

/-- The revoking update preserves the one-active-session-per-gate
invariant. -/
theorem noTwoActive_revoke (gateId : String)
    (sessions : List GateSessionRow)
    (h : noTwoActive sessions = true) :
    noTwoActive (revokeActiveForGate gateId sessions) = true := by
  induction sessions with
  | nil => rfl
  | cons a t ih =>
    unfold noTwoActive at h
    rw [Bool.and_eq_true] at h
    have hrec := ih h.2
    show noTwoActive (_ :: revokeActiveForGate gateId t) = true
    unfold noTwoActive
    rw [Bool.and_eq_true]
    refine ⟨?_, hrec⟩
    set fa := if a.gate_id == gateId && a.status == "active" then
      { a with status := "revoked" } else a with hfa
    by_cases hact : fa.status = "active"
    · have hsrc : fa = a ∧ a.gate_id ≠ gateId := by
        by_cases hc : (a.gate_id == gateId && a.status == "active") = true
        · rw [hfa, if_pos hc] at hact
          simp at hact
        · constructor
          · rw [hfa, if_neg hc]
          · intro hg
            rw [hfa, if_neg hc] at hact
            exact hc (by simp [hact, hg])
      have haa : a.status = "active" := by
        rw [← hsrc.1]; exact hact
      have hall : t.all
          (fun u => !(u.status == "active" && u.gate_id == a.gate_id))
          = true := by
        rcases Bool.or_eq_true_iff.mp h.1 with hx | hx
        · rw [bne_iff_ne] at hx
          exact absurd haa hx
        · exact hx
      rw [Bool.or_eq_true_iff]
      right
      rw [List.all_eq_true]
      intro u hu
      obtain ⟨u0, hu0, hueq⟩ := List.mem_map.mp hu
      by_cases huact : u.status = "active"
      · have hu0eq : u = u0 := by
          by_cases hc : (u0.gate_id == gateId && u0.status == "active")
              = true
          · rw [if_pos hc] at hueq
            rw [← hueq] at huact
            simp at huact
          · rw [if_neg hc] at hueq
            exact hueq.symm
        have hk := List.all_eq_true.mp hall u0 hu0
        rw [← hu0eq] at hk
        have hga : fa.gate_id = a.gate_id := by
          rw [hfa]
          by_cases hc : (a.gate_id == gateId && a.status == "active") = true
          · rw [if_pos hc]
          · rw [if_neg hc]
        rw [hga]
        exact hk
      · have : (u.status == "active") = false := by
          simp [huact]
        simp [this]
    · rw [Bool.or_eq_true_iff]
      left
      rw [bne_iff_ne]
      exact hact

/-- Appending one active session for a gate no other listed session is
actively holding preserves the invariant. -/
theorem noTwoActive_append_one (l1 : List GateSessionRow)
    (x : GateSessionRow) (h1 : noTwoActive l1 = true)
    (h2 : ∀ s ∈ l1, ¬(s.status = "active" ∧ s.gate_id = x.gate_id)) :
    noTwoActive (l1 ++ [x]) = true := by
  induction l1 with
  | nil =>
    unfold noTwoActive
    simp [noTwoActive]
  | cons s t ih =>
    unfold noTwoActive at h1
    rw [Bool.and_eq_true] at h1
    have hrec := ih h1.2 (fun u hu => h2 u (List.mem_cons_of_mem s hu))
    show noTwoActive (s :: (t ++ [x])) = true
    unfold noTwoActive
    rw [Bool.and_eq_true]
    refine ⟨?_, hrec⟩
    by_cases hact : s.status = "active"
    · rw [Bool.or_eq_true_iff]
      right
      rw [List.all_append, Bool.and_eq_true]
      constructor
      · rcases Bool.or_eq_true_iff.mp h1.1 with hx | hx
        · rw [bne_iff_ne] at hx
          exact absurd hact hx
        · exact hx
      · have hxg : ¬(x.status = "active" ∧ x.gate_id = s.gate_id) := by
          rintro ⟨hxa, hxgate⟩
          exact h2 s (List.mem_cons_self s t) ⟨hact, hxgate.symm⟩
        simp only [List.all_cons, List.all_nil, Bool.and_true]
        by_cases hxa : x.status = "active"
        · have : x.gate_id ≠ s.gate_id := fun hg => hxg ⟨hxa, hg⟩
          simp [this]
        · have : (x.status == "active") = false := by simp [hxa]
          simp [this]
    · rw [Bool.or_eq_true_iff]
      left
      rw [bne_iff_ne]
      exact hact

/-- Looking up a just-revoked session by its token hash (unique column)
finds the revoked row. -/
theorem find_revoked (gateId : String) (l : List GateSessionRow)
    (s : GateSessionRow) (hmem : s ∈ l)
    (hnd : (l.map (fun x => x.session_token_hash)).Nodup)
    (hg : s.gate_id = gateId) (ha : s.status = "active") :
    (revokeActiveForGate gateId l).find?
      (fun x => x.session_token_hash == s.session_token_hash)
      = some { s with status := "revoked" } := by
  induction l with
  | nil => cases hmem
  | cons a t ih =>
    rw [List.map_cons, List.nodup_cons] at hnd
    rcases List.mem_cons.mp hmem with rfl | hmt
    · have hc : (s.gate_id == gateId && s.status == "active") = true := by
        simp [hg, ha]
      unfold revokeActiveForGate
      rw [List.map_cons, if_pos hc]
      exact List.find?_cons_of_pos _ (by simp)
    · have hne : a.session_token_hash ≠ s.session_token_hash := by
        intro heq
        exact hnd.1 (heq ▸ List.mem_map_of_mem
          (fun x => x.session_token_hash) hmt)
      unfold revokeActiveForGate
      rw [List.map_cons]
      rw [List.find?_cons_of_neg]
      · exact ih hmt hnd.2
      · by_cases hc : (a.gate_id == gateId && a.status == "active") = true
        · rw [if_pos hc]
          simp [hne]
        · rw [if_neg hc]
          simp [hne]

/-- After issuing a fresh session, its gate holds exactly one active
session. -/
theorem countActive_after_issue (gateId : String)
    (l : List GateSessionRow) (fresh : GateSessionRow)
    (hg : fresh.gate_id = gateId) (ha : fresh.status = "active") :
    countActiveFor (revokeActiveForGate gateId l ++ [fresh]) gateId = 1 := by
  unfold countActiveFor
  rw [List.filter_append]
  have h1 : (revokeActiveForGate gateId l).filter
      (fun s => s.gate_id == gateId && s.status == "active") = [] := by
    rw [List.filter_eq_nil_iff]
    intro a hamem hp
    rw [Bool.and_eq_true, beq_iff_eq, beq_iff_eq] at hp
    exact revoke_no_active gateId l a hamem ⟨hp.2, hp.1⟩
  rw [h1]
  simp [hg, ha]

/-- C6: issuing a gate session revokes, in the same transaction, every
prior active session of that gate before inserting the fresh active one;
the at-most-one-active-session-per-gate invariant is preserved and the
gate ends up with exactly one active session; and any later request
bearing a previously-active (now revoked) session token receives 403,
regardless of expiry. -/
theorem gate_session_rotation (db : TenantDb)
    (gateId bootstrapToken : String) (ttl : Int) (newId : Nat)
    (newToken : String) (now now2 : Int) (gate : GateRow)
    (hgid : gateId ≠ "") (hbt : bootstrapToken ≠ "")
    (hg : db.gates.find? (fun g0 => g0.id == gateId) = some gate)
    (hact : gate.status = "active")
    (hreuse : db.gate_sessions.find? (fun s =>
      s.bootstrap_token_hash == some (_hash_token bootstrapToken))
      = none) :
    ∃ db',
      gate_auth_session db gateId bootstrapToken bootstrapToken ttl newId
        newToken now = .ok (db', newToken) ∧
      db'.gate_sessions = revokeActiveForGate gateId db.gate_sessions ++
        [{ id := newId, gate_id := gateId,
           session_token_hash := _hash_token newToken,
           bootstrap_token_hash := some (_hash_token bootstrapToken),
           status := "active", expires_at := now + ttl,
           last_seen_at := some now, last_frame_at := none }] ∧
      (noTwoActive db.gate_sessions = true →
        noTwoActive db'.gate_sessions = true) ∧
      countActiveFor db'.gate_sessions gateId = 1 ∧
      (∀ s ∈ db.gate_sessions, s.gate_id = gateId → s.status = "active" →
        (db.gate_sessions.map
          (fun x => x.session_token_hash)).Nodup →
        ∀ tok, _hash_token tok = s.session_token_hash →
          get_gate_session db'.gate_sessions tok now2
            = .error (403, "Session revoked")) := by
  have hok : gate_auth_session db gateId bootstrapToken bootstrapToken ttl
      newId newToken now = .ok
        ({ db with gate_sessions :=
            revokeActiveForGate gateId db.gate_sessions ++
            [{ id := newId, gate_id := gateId,
               session_token_hash := _hash_token newToken,
               bootstrap_token_hash := some (_hash_token bootstrapToken),
               status := "active", expires_at := now + ttl,
               last_seen_at := some now, last_frame_at := none }] },
         newToken) := by
    unfold gate_auth_session
    rw [if_neg (by simpa using hgid), if_neg (by simpa using hbt), hg]
    have hs : (gate.status != "active") = false := by simp [hact]
    dsimp only
    rw [hs]
    simp only [Bool.false_eq_true, if_false]
    have hc : (bootstrapToken == "" || bootstrapToken != bootstrapToken)
        = false := by simp [hbt]
    rw [hc]
    simp only [Bool.false_eq_true, if_false]
    rw [hreuse]
  refine ⟨_, hok, rfl, ?_, ?_, ?_⟩
  · intro hinv
    exact noTwoActive_append_one _ _
      (noTwoActive_revoke gateId db.gate_sessions hinv)
      (revoke_no_active gateId db.gate_sessions)
  · exact countActive_after_issue gateId db.gate_sessions _ rfl rfl
  · intro s hs hsg hsa hnd tok htok
    unfold get_gate_session
    rw [htok]
    have hf := find_revoked gateId db.gate_sessions s hs hnd hsg hsa
    rw [List.find?_append, hf]
    rfl

/-- Witness for C6: issuing a second session for gate `g-1` revokes the
session issued first, exactly one active session remains, and the old
token now gets 403. -/
theorem gate_session_rotation_witness :
    ∃ db',
      gate_auth_session W.dbGate "g-1" "boot-new" "boot-new" 3600 11
        "tok-new" 500 = .ok (db', "tok-new") ∧
      db'.gate_sessions =
        revokeActiveForGate "g-1" W.dbGate.gate_sessions ++
        [{ id := 11, gate_id := "g-1",
           session_token_hash := _hash_token "tok-new",
           bootstrap_token_hash := some (_hash_token "boot-new"),
           status := "active", expires_at := 500 + 3600,
           last_seen_at := some 500, last_frame_at := none }] ∧
      (noTwoActive W.dbGate.gate_sessions = true →
        noTwoActive db'.gate_sessions = true) ∧
      countActiveFor db'.gate_sessions "g-1" = 1 ∧
      (∀ s ∈ W.dbGate.gate_sessions, s.gate_id = "g-1" →
        s.status = "active" →
        (W.dbGate.gate_sessions.map
          (fun x => x.session_token_hash)).Nodup →
        ∀ tok, _hash_token tok = s.session_token_hash →
          get_gate_session db'.gate_sessions tok 2000
            = .error (403, "Session revoked")) :=
  gate_session_rotation W.dbGate "g-1" "boot-new" 3600 11 "tok-new" 500
    2000 W.gate0 (by decide) (by decide) rfl rfl rfl

/-- Appending a fresh ledger row makes it the lookup result for its key. -/
theorem idem_find_append (l : List IdemKeyRow) (x : IdemKeyRow)
    (key : String) (hnone : l.find? (fun k => k.key == key) = none)
    (hx : x.key = key) :
    (l ++ [x]).find? (fun k => k.key == key) = some x := by
  rw [List.find?_append, hnone]
  simp [List.find?, hx]

/-- C1: after a first accepted submission of a frame, an identical
re-submission returns the same `job_id` with `idempotent = true`, changes
nothing and enqueues nothing; a re-submission of the same `frame_id` with
a different request hash gets HTTP 409, creates no second ledger entry and
enqueues nothing; exactly one recognition job is ever enqueued for the
frame, and every recognition-job run preserves the
at-most-one-`RecognitionResult`-per-frame invariant. -/
theorem frame_submission_idempotency (db : TenantDb)
    (sess : GateSessionRow) (p p' : FrameSubmission)
    (now1 now2 now3 cooldown : Int) (j1 j2 j3 : String) (gate : GateRow)
    (hsg : sess.gate_id = p.gate_id)
    (hg : db.gates.find? (fun g0 => g0.id == p.gate_id) = some gate)
    (hact : gate.status = "active")
    (hfresh : db.idempotency_keys.find? (fun k => k.key == p.frame_id)
      = none)
    (hc1 : (match sess.last_frame_at with
            | some t => cooldown > 0 && now1 - t < cooldown
            | none => false) = false)
    (hc2 : (cooldown > 0 && now2 - now1 < cooldown) = false)
    (hc3 : (cooldown > 0 && now3 - now1 < cooldown) = false) :
    ∃ db1,
      gate_frames db sess p now1 cooldown j1 =
        (.accepted p.frame_id j1 false, db1,
         [{ frame_id := p.frame_id, gate_id := p.gate_id,
            captured_at := p.captured_at,
            request_hash := _hash_payload p, job_id := j1,
            image := p.image, session_id := some sess.id,
            face_present := p.face_present,
            motion_score := p.motion_score }]) ∧
      gate_frames db1 (touchSession sess now1) p now2 cooldown j2 =
        (.accepted p.frame_id j1 true, db1, []) ∧
      (p'.frame_id = p.frame_id → p'.gate_id = p.gate_id →
       _hash_payload p' ≠ _hash_payload p →
       gate_frames db1 (touchSession sess now1) p' now3 cooldown j3 =
         (.errorResp 409 "frame_id already used with different payload",
          db1, [])) ∧
      (∀ dbx argsx envx, uniqueFrameIds dbx →
        uniqueFrameIds (recognition_job dbx argsx envx).1) := by
  have hsgb : (sess.gate_id != p.gate_id) = false := by simp [hsg]
  have hactb : (gate.status != "active") = false := by simp [hact]
  set idem : IdemKeyRow :=
    { scope := "visit_event", key := p.frame_id,
      request_hash := _hash_payload p, response_ref := j1,
      status := "pending" } with hidem
  set db1 : TenantDb :=
    { db with
      idempotency_keys := db.idempotency_keys ++ [idem],
      gate_sessions :=
        storeSession db.gate_sessions (touchSession sess now1) } with hdb1
  have hfind1 : db1.idempotency_keys.find? (fun k => k.key == p.frame_id)
      = some idem := by
    rw [hdb1]
    exact idem_find_append _ _ _ hfresh rfl
  have hfirst : gate_frames db sess p now1 cooldown j1 =
      (.accepted p.frame_id j1 false, db1,
       [{ frame_id := p.frame_id, gate_id := p.gate_id,
          captured_at := p.captured_at,
          request_hash := _hash_payload p, job_id := j1,
          image := p.image, session_id := some sess.id,
          face_present := p.face_present,
          motion_score := p.motion_score }]) := by
    unfold gate_frames
    rw [hsgb]
    simp only [Bool.false_eq_true, if_false]
    rw [hg]
    dsimp only
    rw [hactb]
    simp only [Bool.false_eq_true, if_false]
    rw [hc1]
    simp only [Bool.false_eq_true, if_false]
    rw [hfresh]
  refine ⟨db1, hfirst, ?_, ?_, ?_⟩
  · unfold gate_frames
    have hsgb2 : ((touchSession sess now1).gate_id != p.gate_id) = false :=
      hsgb
    rw [hsgb2]
    simp only [Bool.false_eq_true, if_false]
    have hg2 : db1.gates.find? (fun g0 => g0.id == p.gate_id)
        = some gate := hg
    rw [hg2]
    dsimp only
    rw [hactb]
    simp only [Bool.false_eq_true, if_false]
    have hcool : (match (touchSession sess now1).last_frame_at with
        | some t => cooldown > 0 && now2 - t < cooldown
        | none => false) = false := hc2
    rw [hcool]
    simp only [Bool.false_eq_true, if_false]
    rw [hfind1]
    dsimp only
    have : (idem.request_hash != _hash_payload p) = false := by
      rw [hidem]
      simp
    rw [this]
    simp only [Bool.false_eq_true, if_false]
  · intro hfi hgi hhash
    unfold gate_frames
    have hsgb3 : ((touchSession sess now1).gate_id != p'.gate_id)
        = false := by
      rw [hgi]
      exact hsgb
    rw [hsgb3]
    simp only [Bool.false_eq_true, if_false]
    have hg3 : db1.gates.find? (fun g0 => g0.id == p'.gate_id)
        = some gate := by
      rw [hgi]
      exact hg
    rw [hg3]
    dsimp only
    rw [hactb]
    simp only [Bool.false_eq_true, if_false]
    have hcool : (match (touchSession sess now1).last_frame_at with
        | some t => cooldown > 0 && now3 - t < cooldown
        | none => false) = false := hc3
    rw [hcool]
    simp only [Bool.false_eq_true, if_false]
    have hfind3 : db1.idempotency_keys.find?
        (fun k => k.key == p'.frame_id) = some idem := by
      rw [hfi]
      exact hfind1
    rw [hfind3]
    dsimp only
    have : (idem.request_hash != _hash_payload p') = true := by
      rw [hidem]
      simp [bne_iff_ne]
      exact fun h => hhash h.symm
    rw [this]
    simp only [if_true]
  · intro dbx argsx envx hx
    exact recognition_job_preserves_unique dbx argsx envx hx

/-- Witness for C1 at a concrete gate and frame: replay returns the first
job id idempotently; different bytes get 409; the invariant holds. -/
theorem frame_submission_idempotency_witness :
    ∃ db1,
      gate_frames W.dbGate W.sess0 W.frameP 500 0 "job-1" =
        (.accepted W.frameP.frame_id "job-1" false, db1,
         [{ frame_id := W.frameP.frame_id, gate_id := W.frameP.gate_id,
            captured_at := W.frameP.captured_at,
            request_hash := _hash_payload W.frameP, job_id := "job-1",
            image := W.frameP.image, session_id := some W.sess0.id,
            face_present := W.frameP.face_present,
            motion_score := W.frameP.motion_score }]) ∧
      gate_frames db1 (touchSession W.sess0 500) W.frameP 501 0 "job-2" =
        (.accepted W.frameP.frame_id "job-1" true, db1, []) ∧
      (W.framePConf.frame_id = W.frameP.frame_id →
       W.framePConf.gate_id = W.frameP.gate_id →
       _hash_payload W.framePConf ≠ _hash_payload W.frameP →
       gate_frames db1 (touchSession W.sess0 500) W.framePConf 502 0
           "job-3" =
         (.errorResp 409 "frame_id already used with different payload",
          db1, [])) ∧
      (∀ dbx argsx envx, uniqueFrameIds dbx →
        uniqueFrameIds (recognition_job dbx argsx envx).1) :=
  frame_submission_idempotency W.dbGate W.sess0 W.frameP W.framePConf
    500 501 502 0 "job-1" "job-2" "job-3" W.gate0 rfl rfl rfl rfl rfl
    (by decide) (by decide)

end Theorems

end Presence360
